import Mathlib

/-!
Verification development for the OpenPGP key-material and PKESK (public-key
encrypted session key) subsystem of a Go OpenPGP library.

The development shallowly embeds the two source files:
  * `openpgp/packet/encrypted_key.go` — the PKESK codec (`parse`,
    `SerializeEncryptedKeyAEAD`, `Decrypt`, the session-key checksum codec);
  * the entity/key-generation file (`NewEntity`, `addUserId`, `newSigner`,
    `newDecrypter`, `generateRSAKeyWithPrimes`).

Bytes are modelled as `Nat` (written values are reduced `% 256` where the Go
code casts to `byte`); Go `uint16` arithmetic is modelled `% 65536`; Go
`big.Int` values are `Nat`.  The cryptographic primitives (RSA, ElGamal, ECDH,
X25519/X448, Kyber KEM) are external collaborators in the source and are
passed as function parameters here.  Fallible Go functions return values
paired with an optional error; Go runtime panics (out-of-range slice
indexing) are modelled by an explicit `panics` outcome.
-/

set_option maxRecDepth 1000000

/-- Number of bits in the binary representation of `n`, i.e. Go `big.Int.BitLen`
(0 for 0).  Implemented with an explicit fuel argument (`fuel = n` always
suffices, since `n` needs at most `n` halvings to reach 0) so that the
definition reduces inside the kernel. -/
def bitLenAux : Nat → Nat → Nat
  | _, 0 => 0
  | 0, _ => 0
  | fuel+1, n => bitLenAux fuel (n / 2) + 1

def bitLen (n : Nat) : Nat := bitLenAux n n

/-- Big-endian interpretation of a byte list, as in `binary.BigEndian.Uint64`. -/
def beBytesToNat (bs : List Nat) : Nat := bs.foldl (fun acc b => acc * 256 + b) 0

/-- Big-endian encoding of `n` on exactly `w` bytes, as in
`binary.BigEndian.PutUint64` (truncating above `256^w`). -/
def natToBeBytes : Nat → Nat → List Nat
  | 0, _ => []
  | w+1, n => natToBeBytes w (n / 256) ++ [n % 256]

/-- Minimal big-endian byte representation of `n` (no leading zero bytes),
as in `big.Int.Bytes`. -/
def natMinBytes (n : Nat) : List Nat := natToBeBytes ((bitLen n + 7) / 8) n

/-- The error taxonomy of the `openpgp/errors` package, plus a constructor
for generic `errors.New` errors and one for errors raised by the external
crypto primitives.  Dynamic parts of the source's messages (hex-printed key
ids, algorithm numbers) are omitted; the static message text is kept. -/
inductive PgpError where
  | invalidArgument (msg : String)
  | unsupported (msg : String)
  | structural (msg : String)
  | dummyKey (msg : String)
  | generic (msg : String)
  | cryptoErr (msg : String)
  | ioError (msg : String)
deriving DecidableEq

def PgpError.isInvalidArg : PgpError → Bool
  | .invalidArgument _ => true
  | _ => false

def PgpError.isStructural : PgpError → Bool
  | .structural _ => true
  | _ => false

/-- Outcome of running a piece of Go code that may panic at runtime
(out-of-range slice indexing): either a value or a panic. -/
inductive GoAttempt (α : Type) where
  | panics : GoAttempt α
  | ok : α → GoAttempt α
deriving DecidableEq

/-! ### Algorithm and cipher identifiers

The byte identifiers live in the packet/algorithm registry of the repository
(outside the two source files); the exact numbers are immaterial to every
claim below — only their distinctness and the wire round-trip matter.  The
classical numbers are the RFC 4880 registry values; the post-quantum numbers
follow the experimental registry described by the spec. -/

def pubKeyAlgoRSA : Nat := 1
def pubKeyAlgoRSAEncryptOnly : Nat := 2
def pubKeyAlgoRSASignOnly : Nat := 3
def pubKeyAlgoElGamal : Nat := 16
def pubKeyAlgoDSA : Nat := 17
def pubKeyAlgoECDH : Nat := 18
def pubKeyAlgoECDSA : Nat := 19
def pubKeyAlgoEdDSA : Nat := 22
def pubKeyAlgoX25519 : Nat := 25
def pubKeyAlgoX448 : Nat := 26
def pubKeyAlgoKyber768X25519 : Nat := 29
def pubKeyAlgoKyber1024X448 : Nat := 30
def pubKeyAlgoKyber768P256 : Nat := 31
def pubKeyAlgoKyber1024P384 : Nat := 32
def pubKeyAlgoKyber768Brainpool256 : Nat := 33
def pubKeyAlgoKyber1024Brainpool384 : Nat := 34
def pubKeyAlgoDilithium3Ed25519 : Nat := 35
def pubKeyAlgoDilithium5Ed448 : Nat := 36
def pubKeyAlgoDilithium3p256 : Nat := 37
def pubKeyAlgoDilithium5p384 : Nat := 38
def pubKeyAlgoDilithium3Brainpool256 : Nat := 39
def pubKeyAlgoDilithium5Brainpool384 : Nat := 40
def pubKeyAlgoSphincsPlusSha2 : Nat := 41
def pubKeyAlgoSphincsPlusShake : Nat := 42

def isKyberAlgo (a : Nat) : Bool :=
  a = pubKeyAlgoKyber768X25519 ∨ a = pubKeyAlgoKyber1024X448 ∨
  a = pubKeyAlgoKyber768P256 ∨ a = pubKeyAlgoKyber1024P384 ∨
  a = pubKeyAlgoKyber768Brainpool256 ∨ a = pubKeyAlgoKyber1024Brainpool384

/-- OpenPGP symmetric cipher function identifiers (AES family). -/
def cipherAES128 : Nat := 7
def cipherAES192 : Nat := 8
def cipherAES256 : Nat := 9

attribute [simp] pubKeyAlgoRSA pubKeyAlgoRSAEncryptOnly pubKeyAlgoRSASignOnly
  pubKeyAlgoElGamal pubKeyAlgoDSA pubKeyAlgoECDH pubKeyAlgoECDSA pubKeyAlgoEdDSA
  pubKeyAlgoX25519 pubKeyAlgoX448 pubKeyAlgoKyber768X25519 pubKeyAlgoKyber1024X448
  pubKeyAlgoKyber768P256 pubKeyAlgoKyber1024P384 pubKeyAlgoKyber768Brainpool256
  pubKeyAlgoKyber1024Brainpool384 pubKeyAlgoDilithium3Ed25519 pubKeyAlgoDilithium5Ed448
  pubKeyAlgoDilithium3p256 pubKeyAlgoDilithium5p384 pubKeyAlgoDilithium3Brainpool256
  pubKeyAlgoDilithium5Brainpool384 pubKeyAlgoSphincsPlusSha2 pubKeyAlgoSphincsPlusShake
  cipherAES128 cipherAES192 cipherAES256

def isAESCipherFunc (c : Nat) : Bool :=
  c = cipherAES128 ∨ c = cipherAES192 ∨ c = cipherAES256

/-- Modelled from the spec: `CipherFunction.IsSupported` lives in the
algorithm registry outside the source files.  The spec's §4.8 cipher options
are the AES family; the supported set is modelled as exactly AES-128/192/256.
No claim below depends on the support status of any non-AES cipher. -/
def isSupportedCipherFunc (c : Nat) : Bool := isAESCipherFunc c

/-! ### Session-key checksum codec (`encrypted_key.go` lines 589–612) -/

/-- `checksumKeyMaterial`: 16-bit wrapping sum of the key bytes
(`uint16` accumulation). -/
def checksumKeyMaterial (key : List Nat) : Nat :=
  key.foldl (fun acc v => (acc + v) % 65536) 0

/-- `encodeChecksumKey(buffer, key)` writes `key` followed by the big-endian
16-bit checksum into a caller-provided buffer of length `len(key)+2`; the
model returns the written buffer. -/
def encodeChecksumKey (key : List Nat) : List Nat :=
  let c := checksumKeyMaterial key
  key ++ [c / 256, c % 256]

/-- `decodeChecksumKey(msg)`: strips and verifies the trailing two checksum
bytes.  The Go code slices `msg[:len(msg)-2]` without a length check, so a
message of fewer than two bytes panics (slice bounds out of range). -/
def decodeChecksumKey (msg : List Nat) : GoAttempt (List Nat × Option PgpError) :=
  if msg.length < 2 then .panics
  else
    let key := msg.take (msg.length - 2)
    let expected := (msg.getD (msg.length - 2) 0) % 256 * 256 +
                    (msg.getD (msg.length - 1) 0) % 256
    let checksum := checksumKeyMaterial key
    .ok (key, if checksum ≠ expected then some (.structural "session key checksum is incorrect") else none)

/-! ### Wire field encodings

`encoding.MPI`, `encoding.OID`, `encoding.OctetArray` and the
`x25519`/`x448` CFRG envelope live outside the source files.
Modelled from the spec (§6):
  * MPI — 2-byte big-endian bit length, then `ceil(bits/8)` bytes with the
    high bit of the first byte set (i.e. no leading zero bytes);
  * OID-length encoding — 1-byte length, then that many bytes;
  * octet array — raw bytes of the registry's fixed length;
  * X25519/X448 envelope — fixed-size ephemeral key, a 1-byte length
    prefixed ciphertext, and in v3 a trailing cipher-function octet. -/

def dropLeadingZeros : List Nat → List Nat
  | [] => []
  | 0 :: rest => dropLeadingZeros rest
  | b :: rest => b :: rest

/-- Bit length of a byte string with no leading zero bytes. -/
def bytesBitLen : List Nat → Nat
  | [] => 0
  | b :: rest => bitLen b + 8 * rest.length

/-- `encoding.NewMPI(bytes).EncodedBytes()`: strip leading zeros, prefix the
16-bit bit count. -/
def mpiEncodeBytes (bs : List Nat) : List Nat :=
  let s := dropLeadingZeros bs
  let bits := bytesBitLen s
  [bits / 256 % 256, bits % 256] ++ s

/-- `new(encoding.MPI).SetBig(n).EncodedBytes()`. -/
def mpiEncodeNat (n : Nat) : List Nat :=
  [bitLen n / 256 % 256, bitLen n % 256] ++ natToBeBytes ((bitLen n + 7) / 8) n

/-- `encoding.NewOID(bytes).EncodedBytes()`: 1-byte length then the bytes. -/
def oidEncode (bs : List Nat) : List Nat := (bs.length % 256) :: bs

/-! ### Packet and key records -/

/-- The `EncryptedKey` packet (PKESK).  The `encryptedMPI*` fields hold the
`Bytes()` views of the corresponding wire fields. -/
structure EncryptedKey where
  Version : Nat
  KeyId : Nat
  KeyVersion : Nat
  KeyFingerprint : List Nat
  Algo : Nat
  CipherFunc : Nat
  Key : List Nat
  encryptedMPI1 : List Nat
  encryptedMPI2 : List Nat
  encryptedMPI3 : List Nat
  ephemeralPublicX25519 : List Nat
  ephemeralPublicX448 : List Nat
  encryptedSession : List Nat
deriving DecidableEq

/-- A public key as consumed by the PKESK serializer: identification data
plus the modulus bit length used for RSA padding.  The algorithm-specific
key material itself is external and lives inside the primitive closures. -/
structure PublicKey where
  Version : Nat
  KeyId : Nat
  Fingerprint : List Nat
  PubKeyAlgo : Nat
deriving DecidableEq

/-- A private key as consumed by `Decrypt`: identification data, the dummy
marker, and the RSA modulus bit length used by `padToKeySize`. -/
structure PrivateKey where
  KeyId : Nat
  Fingerprint : List Nat
  PubKeyAlgo : Nat
  isDummy : Bool
  rsaModulusBits : Nat
deriving DecidableEq

/-! ### The packet body reader -/

/-- Reader over the remaining bytes of a packet body: a state-passing
computation that either returns a value and the rest of the input or an
error (`io.ReadFull` shortfalls surface as errors). -/
def ParseM (α : Type) : Type := List Nat → Except PgpError (α × List Nat)

instance : Monad ParseM where
  pure a := fun s => .ok (a, s)
  bind x f := fun s => match x s with
    | .ok (a, s2) => f a s2
    | .error e => .error e

def pthrow {α : Type} (e : PgpError) : ParseM α := fun _ => .error e

/-- Read one byte (`readFull(r, buf[:1])`). -/
def rd1 : ParseM Nat := fun s =>
  match s with
  | [] => .error (.ioError "unexpected EOF")
  | b :: rest => .ok (b, rest)

/-- Read exactly `n` bytes (`readFull` on an `n`-byte buffer). -/
def rdN (n : Nat) : ParseM (List Nat) := fun s =>
  if n ≤ s.length then .ok (s.take n, s.drop n) else .error (.ioError "unexpected EOF")

/-- `encoding.MPI.ReadFrom`: 2-byte bit count, then `(bits+7)/8` bytes. -/
def readMPI : ParseM (List Nat) := do
  let hd ← rdN 2
  let bits := (hd.getD 0 0) * 256 + hd.getD 1 0
  rdN ((bits + 7) / 8)

/-- `encoding.OID.ReadFrom`: 1-byte length, then that many bytes. -/
def readOID : ParseM (List Nat) := do
  let l ← rd1
  rdN l

/-- `x25519.DecodeFields` / `x448.DecodeFields` (spec §6): fixed-size
ephemeral key, 1-byte ciphertext length, ciphertext, and in v3 a trailing
cipher-function octet.  Returns `(ephemeral, ciphertext, cipherByte)`,
with `cipherByte = 0` at v6. -/
def decodeCFRGFields (ephLen : Nat) (isV6 : Bool) : ParseM (List Nat × List Nat × Nat) := do
  let eph ← rdN ephLen
  let l ← rd1
  let ct ← rdN l
  let cf ← if isV6 then pure 0 else rd1
  pure (eph, ct, cf)

/-- `x25519.EncodedFieldsLength` analogue of `encodeCFRGFields`. -/
def encodeCFRGFields (eph ct : List Nat) (cipherByte : Nat) (isV6 : Bool) : List Nat :=
  eph ++ [ct.length % 256] ++ ct ++ (if isV6 then [] else [cipherByte % 256])

/-- `readKyberECDHKey`: fixed-length ECC octet array, fixed-length Kyber
octet array, then an OID-length-prefixed wrapped key. -/
def readKyberECDHKey (lenEcc lenKyber : Nat) : ParseM (List Nat × List Nat × List Nat) := do
  let ec ← rdN lenEcc
  let ky ← rdN lenKyber
  let m ← readOID
  pure (ec, ky, m)

/-- An `EncryptedKey` with only the header fields filled in; the remaining
fields hold Go zero values. -/
def baseEK (version keyVersion : Nat) (fingerprint : List Nat) (keyId : Nat) (algo : Nat) : EncryptedKey :=
  { Version := version
    KeyId := keyId
    KeyVersion := keyVersion
    KeyFingerprint := fingerprint
    Algo := algo
    CipherFunc := 0
    Key := []
    encryptedMPI1 := []
    encryptedMPI2 := []
    encryptedMPI3 := []
    ephemeralPublicX25519 := []
    ephemeralPublicX448 := []
    encryptedSession := [] }

/-- The algorithm dispatch of `EncryptedKey.parse` (everything after the
version/issuer header): reads the algorithm octet and the
algorithm-specific fields.  Unknown algorithms read no fields. -/
def parseAlgoFields (version keyVersion : Nat) (fingerprint : List Nat) (keyId : Nat) : ParseM EncryptedKey := do
  let algo ← rd1
  let base := baseEK version keyVersion fingerprint keyId algo
  if algo = pubKeyAlgoRSA ∨ algo = pubKeyAlgoRSAEncryptOnly then do
    let m1 ← readMPI
    pure { base with encryptedMPI1 := m1 }
  else if algo = pubKeyAlgoElGamal then do
    let m1 ← readMPI
    let m2 ← readMPI
    pure { base with encryptedMPI1 := m1, encryptedMPI2 := m2 }
  else if algo = pubKeyAlgoECDH then do
    let m1 ← readMPI
    let m2 ← readOID
    pure { base with encryptedMPI1 := m1, encryptedMPI2 := m2 }
  else if algo = pubKeyAlgoX25519 then do
    let f ← decodeCFRGFields 32 (version = 6)
    pure { base with ephemeralPublicX25519 := f.1, encryptedSession := f.2.1,
                     CipherFunc := if version < 6 then f.2.2 else 0 }
  else if algo = pubKeyAlgoX448 then do
    let f ← decodeCFRGFields 56 (version = 6)
    pure { base with ephemeralPublicX448 := f.1, encryptedSession := f.2.1,
                     CipherFunc := if version < 6 then f.2.2 else 0 }
  else if algo = pubKeyAlgoKyber768X25519 then do
    let f ← readKyberECDHKey 32 1088
    pure { base with encryptedMPI1 := f.1, encryptedMPI2 := f.2.1, encryptedMPI3 := f.2.2 }
  else if algo = pubKeyAlgoKyber1024X448 then do
    let f ← readKyberECDHKey 56 1568
    pure { base with encryptedMPI1 := f.1, encryptedMPI2 := f.2.1, encryptedMPI3 := f.2.2 }
  else if algo = pubKeyAlgoKyber768P256 then do
    let f ← readKyberECDHKey 65 1088
    pure { base with encryptedMPI1 := f.1, encryptedMPI2 := f.2.1, encryptedMPI3 := f.2.2 }
  else if algo = pubKeyAlgoKyber1024P384 then do
    let f ← readKyberECDHKey 97 1568
    pure { base with encryptedMPI1 := f.1, encryptedMPI2 := f.2.1, encryptedMPI3 := f.2.2 }
  else if algo = pubKeyAlgoKyber768Brainpool256 then do
    let f ← readKyberECDHKey 65 1088
    pure { base with encryptedMPI1 := f.1, encryptedMPI2 := f.2.1, encryptedMPI3 := f.2.2 }
  else if algo = pubKeyAlgoKyber1024Brainpool384 then do
    let f ← readKyberECDHKey 97 1568
    pure { base with encryptedMPI1 := f.1, encryptedMPI2 := f.2.1, encryptedMPI3 := f.2.2 }
  else
    pure base

/-- `EncryptedKey.parse` up to, but not including, the final `consumeAll`:
version octet, issuer data (v6 key version and fingerprint, or v3 key id),
algorithm octet and algorithm-specific fields.  Returns the packet and the
unread remainder of the body. -/
def parseBody : ParseM EncryptedKey := do
  let version ← rd1
  if version ≠ 3 ∧ version ≠ 6 then pthrow (.unsupported "unknown EncryptedKey version")
  else if version = 6 then do
    let keyVersion ← rd1
    if keyVersion ≠ 0 ∧ keyVersion ≠ 4 ∧ keyVersion ≠ 6 then
      pthrow (.unsupported "unknown public key version")
    else do
      let fingerprint ← rdN (if keyVersion = 6 then 32 else if keyVersion = 4 then 20 else 0)
      let keyId := if keyVersion = 6 then beBytesToNat (fingerprint.take 8)
                   else if keyVersion = 4 then beBytesToNat (fingerprint.drop 12) else 0
      parseAlgoFields version keyVersion fingerprint keyId
  else do
    let kid ← rdN 8
    parseAlgoFields version 0 [] (beBytesToNat kid)

/-- `EncryptedKey.parse` over a full packet body.  Modelled from the spec:
the final `consumeAll(r)` helper is not among the source files; per §4.6
step 4 ("Consume remaining packet bytes") it reads and discards the
remaining bytes of the body, returning their count and no error, and
`parse` ignores the returned count. -/
def parse (body : List Nat) : Except PgpError EncryptedKey :=
  match parseBody body with
  | .ok (e, _rest) => .ok e
  | .error err => .error err

/-! ### PKESK serialization (`SerializeEncryptedKeyAEAD`)

The external encryption primitives are passed as closures (they already
capture the recipient key material and the random source).  The writer is
modelled by returning the bytes written; the outer `serializeHeader` framing
(packet tag and length) is stripped by the packet reader before `parse` runs
and is not part of the body. -/

structure EncPrims where
  rsaEncrypt : List Nat → Except String (List Nat)
  elgamalEncrypt : List Nat → Except String (Nat × Nat)
  ecdhEncrypt : List Nat → Except String (List Nat × List Nat)
  x25519Encrypt : List Nat → Except String (List Nat × List Nat)
  x448Encrypt : List Nat → Except String (List Nat × List Nat)
  kyberEncrypt : List Nat → Except String (List Nat × List Nat × List Nat)

def serializeEncryptedKeyRSA (rsaEncrypt : List Nat → Except String (List Nat))
    (header keyBlock : List Nat) : List Nat × Option PgpError :=
  match rsaEncrypt keyBlock with
  | .error msg => ([], some (.invalidArgument ("RSA encryption failed: " ++ msg)))
  | .ok cipherText => (header ++ mpiEncodeBytes cipherText, none)

def serializeEncryptedKeyElGamal (elgamalEncrypt : List Nat → Except String (Nat × Nat))
    (header keyBlock : List Nat) : List Nat × Option PgpError :=
  match elgamalEncrypt keyBlock with
  | .error msg => ([], some (.invalidArgument ("ElGamal encryption failed: " ++ msg)))
  | .ok c => (header ++ mpiEncodeNat c.1 ++ mpiEncodeNat c.2, none)

def serializeEncryptedKeyECDH (ecdhEncrypt : List Nat → Except String (List Nat × List Nat))
    (header keyBlock : List Nat) : List Nat × Option PgpError :=
  match ecdhEncrypt keyBlock with
  | .error msg => ([], some (.invalidArgument ("ECDH encryption failed: " ++ msg)))
  | .ok vc => (header ++ mpiEncodeBytes vc.1 ++ oidEncode vc.2, none)

def serializeEncryptedKeyX25519 (x25519Encrypt : List Nat → Except String (List Nat × List Nat))
    (header keyBlock : List Nat) (cipherFunc : Nat) (version : Nat) : List Nat × Option PgpError :=
  match x25519Encrypt keyBlock with
  | .error msg => ([], some (.invalidArgument ("X25519 encryption failed: " ++ msg)))
  | .ok ec => (header ++ encodeCFRGFields ec.1 ec.2 cipherFunc (version = 6), none)

def serializeEncryptedKeyX448 (x448Encrypt : List Nat → Except String (List Nat × List Nat))
    (header keyBlock : List Nat) (cipherFunc : Nat) (version : Nat) : List Nat × Option PgpError :=
  match x448Encrypt keyBlock with
  | .error msg => ([], some (.invalidArgument ("x448 encryption failed: " ++ msg)))
  | .ok ec => (header ++ encodeCFRGFields ec.1 ec.2 cipherFunc (version = 6), none)

/-- `serializeEncryptedKeyKyber`: the Kyber encryptor returns
`(kE, ecE, wrapped)`; the wire order is ECC share, Kyber ciphertext,
OID-prefixed wrapped key.  The SHA3-256 hash of the issuer public key is
captured inside the closure. -/
def serializeEncryptedKeyKyber (kyberEncrypt : List Nat → Except String (List Nat × List Nat × List Nat))
    (header keyBlock : List Nat) : List Nat × Option PgpError :=
  match kyberEncrypt keyBlock with
  | .error msg => ([], some (.invalidArgument ("kyber_ecdh encryption failed: " ++ msg)))
  | .ok r => (header ++ r.2.1 ++ r.1 ++ oidEncode r.2.2, none)

def isChecksummedAlgo (a : Nat) : Bool :=
  a = pubKeyAlgoRSA ∨ a = pubKeyAlgoRSAEncryptOnly ∨ a = pubKeyAlgoElGamal ∨ a = pubKeyAlgoECDH

/-- `SerializeEncryptedKeyAEAD(w, pub, cipherFunc, aeadSupported, key, config)`.
Version 6 if `aeadSupported` else 3; rejects ElGamal at v6 and non-AES
cipher functions for v3 X25519/X448 before writing anything.  The key block
for RSA/ElGamal/ECDH is the (v3) cipher octet plus checksummed key; for
X25519/X448 it is the raw key; the source's key-block switch has no case
for the Kyber algorithms, so their key block stays nil.  The anonymous
(`pub == nil`) v6 case is not modelled — a nil `pub` would already panic at
the earlier `pub.PubKeyAlgo` dereference in the source. -/
def SerializeEncryptedKeyAEAD (prims : EncPrims) (pub : PublicKey) (cipherFunc : Nat)
    (aeadSupported : Bool) (key : List Nat) : List Nat × Option PgpError :=
  let version : Nat := if aeadSupported then 6 else 3
  if version = 6 ∧ pub.PubKeyAlgo = pubKeyAlgoElGamal then
    ([], some (.invalidArgument "ElGamal v6 PKESK are not allowed"))
  else if version = 3 ∧ (pub.PubKeyAlgo = pubKeyAlgoX25519 ∨ pub.PubKeyAlgo = pubKeyAlgoX448)
          ∧ ¬ isAESCipherFunc cipherFunc then
    ([], some (.invalidArgument "v3 PKESK mandates AES for x25519 and x448"))
  else
    let header : List Nat :=
      if version = 6 then
        6 :: pub.Version % 256 :: (pub.Fingerprint ++ [pub.PubKeyAlgo % 256])
      else
        3 :: (natToBeBytes 8 pub.KeyId ++ [pub.PubKeyAlgo % 256])
    let keyBlock : List Nat :=
      if isChecksummedAlgo pub.PubKeyAlgo then
        (if version < 6 then [cipherFunc % 256] else []) ++ encodeChecksumKey key
      else if pub.PubKeyAlgo = pubKeyAlgoX25519 ∨ pub.PubKeyAlgo = pubKeyAlgoX448 then
        key
      else
        []
    if pub.PubKeyAlgo = pubKeyAlgoRSA ∨ pub.PubKeyAlgo = pubKeyAlgoRSAEncryptOnly then
      serializeEncryptedKeyRSA prims.rsaEncrypt header keyBlock
    else if pub.PubKeyAlgo = pubKeyAlgoElGamal then
      serializeEncryptedKeyElGamal prims.elgamalEncrypt header keyBlock
    else if pub.PubKeyAlgo = pubKeyAlgoECDH then
      serializeEncryptedKeyECDH prims.ecdhEncrypt header keyBlock
    else if pub.PubKeyAlgo = pubKeyAlgoX25519 then
      serializeEncryptedKeyX25519 prims.x25519Encrypt header keyBlock cipherFunc version
    else if pub.PubKeyAlgo = pubKeyAlgoX448 then
      serializeEncryptedKeyX448 prims.x448Encrypt header keyBlock cipherFunc version
    else if isKyberAlgo pub.PubKeyAlgo then
      serializeEncryptedKeyKyber prims.kyberEncrypt header keyBlock
    else if pub.PubKeyAlgo = pubKeyAlgoDSA ∨ pub.PubKeyAlgo = pubKeyAlgoRSASignOnly then
      ([], some (.invalidArgument "cannot encrypt to public key of this type"))
    else
      ([], some (.unsupported "encrypting a key to public key of unknown type"))

/-! ### PKESK decryption (`Decrypt`) -/

structure DecPrims where
  rsaDecrypt : List Nat → Except String (List Nat)
  elgamalDecrypt : Nat → Nat → Except String (List Nat)
  ecdhDecrypt : List Nat → List Nat → Except String (List Nat)
  x25519Decrypt : List Nat → List Nat → Except String (List Nat)
  x448Decrypt : List Nat → List Nat → Except String (List Nat)
  kyberDecrypt : List Nat → List Nat → List Nat → Except String (List Nat)

/-- Modelled from the spec (§4.6): `padToKeySize` left-pads the ciphertext
with zero bytes to the RSA modulus length `(bitlen(N)+7)/8`; longer inputs
are returned unchanged. -/
def padToKeySize (modulusBits : Nat) (b : List Nat) : List Nat :=
  let k := (modulusBits + 7) / 8
  if k ≤ b.length then b else List.replicate (k - b.length) 0 ++ b

/-- The outcome of `Decrypt`: success or error, each carrying the packet
state as left by the call (the source mutates the packet through a
pointer), or a runtime panic from out-of-range indexing. -/
inductive DecOutcome where
  | panics : DecOutcome
  | fails : EncryptedKey → PgpError → DecOutcome
  | succeeds : EncryptedKey → DecOutcome
deriving DecidableEq

def decryptCapableAlgo (a : Nat) : Bool :=
  isChecksummedAlgo a ∨ a = pubKeyAlgoX25519 ∨ a = pubKeyAlgoX448 ∨ isKyberAlgo a

/-- The envelope-stripping tail of `Decrypt` (the switch after the primitive
call): for RSA/ElGamal/ECDH a v3 plaintext starts with the cipher-function
octet (read as `b[0]` with no length check — an empty plaintext panics)
followed by the checksummed key; X25519/X448 require AES at v3 and take the
raw plaintext; the source's switch has no case for the Kyber algorithms, so
their local `key` variable stays nil and the stored session key is empty. -/
def decryptEnvelope (e : EncryptedKey) (b : List Nat) : DecOutcome :=
  if isChecksummedAlgo e.Algo then
    if e.Version < 6 then
      match b with
      | [] => .panics
      | cf :: rest =>
        let e1 := { e with CipherFunc := cf }
        if ¬ isSupportedCipherFunc cf then
          .fails e1 (.unsupported "unsupported encryption function")
        else
          match decodeChecksumKey rest with
          | .panics => .panics
          | .ok (_, some err) => .fails e1 err
          | .ok (key, none) => .succeeds { e1 with Key := key }
    else
      match decodeChecksumKey b with
      | .panics => .panics
      | .ok (_, some err) => .fails e err
      | .ok (key, none) => .succeeds { e with Key := key }
  else if e.Algo = pubKeyAlgoX25519 ∨ e.Algo = pubKeyAlgoX448 then
    if e.Version < 6 ∧ ¬ isAESCipherFunc e.CipherFunc then
      .fails e (.structural "v3 PKESK mandates AES as cipher function for x25519 and x448")
    else
      .succeeds { e with Key := b }
  else
    .succeeds { e with Key := [] }

/-- `EncryptedKey.Decrypt(priv, config)`: issuer, algorithm and dummy-key
checks, then the algorithm primitive (errors from the primitives, including
the Kyber path's `SerializeForHash`, surface through the closure), then
envelope stripping. -/
def Decrypt (prims : DecPrims) (e : EncryptedKey) (priv : PrivateKey) : DecOutcome :=
  if e.Version < 6 ∧ e.KeyId ≠ 0 ∧ e.KeyId ≠ priv.KeyId then
    .fails e (.invalidArgument "cannot decrypt encrypted session key: packet key id does not match the private key id")
  else if e.Version = 6 ∧ e.KeyVersion ≠ 0 ∧ e.KeyFingerprint ≠ priv.Fingerprint then
    .fails e (.invalidArgument "cannot decrypt encrypted session key: packet fingerprint does not match the private key fingerprint")
  else if e.Algo ≠ priv.PubKeyAlgo then
    .fails e (.invalidArgument "cannot decrypt encrypted session key: packet algorithm does not match the private key algorithm")
  else if priv.isDummy then
    .fails e (.dummyKey "dummy key found")
  else if ¬ decryptCapableAlgo priv.PubKeyAlgo then
    .fails e (.invalidArgument "cannot decrypt encrypted session key with private key of this type")
  else
    let pr : Except String (List Nat) :=
      if priv.PubKeyAlgo = pubKeyAlgoRSA ∨ priv.PubKeyAlgo = pubKeyAlgoRSAEncryptOnly then
        prims.rsaDecrypt (padToKeySize priv.rsaModulusBits e.encryptedMPI1)
      else if priv.PubKeyAlgo = pubKeyAlgoElGamal then
        prims.elgamalDecrypt (beBytesToNat e.encryptedMPI1) (beBytesToNat e.encryptedMPI2)
      else if priv.PubKeyAlgo = pubKeyAlgoECDH then
        prims.ecdhDecrypt e.encryptedMPI1 e.encryptedMPI2
      else if priv.PubKeyAlgo = pubKeyAlgoX25519 then
        prims.x25519Decrypt e.ephemeralPublicX25519 e.encryptedSession
      else if priv.PubKeyAlgo = pubKeyAlgoX448 then
        prims.x448Decrypt e.ephemeralPublicX448 e.encryptedSession
      else
        prims.kyberDecrypt e.encryptedMPI1 e.encryptedMPI2 e.encryptedMPI3
    match pr with
    | .error msg => .fails e (.cryptoErr msg)
    | .ok b => decryptEnvelope e b

/-! ### Multi-prime RSA key generation (`generateRSAKeyWithPrimes`) -/

structure RSAPriv where
  n : Nat
  e : Nat
  d : Nat
  primes : List Nat
deriving DecidableEq

/-- Fuel-driven extended Euclid on `(r0, r1)` carrying the Bezout
coefficient of the first argument; `r1` strictly decreases, so any
`fuel > r1` runs it to completion. -/
def egcd : Nat → Nat → Int → Nat → Int → Nat × Int
  | 0, r0, s0, _, _ => (r0, s0)
  | fuel+1, r0, s0, r1, s1 =>
    if r1 = 0 then (r0, s0)
    else egcd fuel r1 s1 (r0 % r1) (s0 - ((r0 / r1 : Nat) : Int) * s1)

/-- `big.Int.ModInverse(a, m)`: the inverse of `a` in `Z/mZ`, or `none`
when `a` and `m` are not coprime.  `fuel = m + 1` always suffices for the
Euclid loop. -/
def modInverse (a m : Nat) : Option Nat :=
  let g := egcd (m + 1) a 1 m 0
  if g.1 = 1 then some ((g.2 % (m : Int)).toNat) else none

/-- One drawn (or prepopulated) prime of the generation loop: the bit size
requested from `rand.Prime` (`none` when the prime came from the
prepopulated list) and the prime used. -/
structure DrawStep where
  request : Option Nat
  prime : Nat
deriving DecidableEq

/-- `todo` before the first draw: `bits`, corrected by `(nprimes-2)/5`
when `nprimes >= 7`. -/
def todoInit (nprimes bits : Nat) : Nat :=
  if 7 ≤ nprimes then bits + (nprimes - 2) / 5 else bits

/-- The prime-collection loop of one attempt: for index `i` (with
`remaining` primes still to produce and `todo` bits of budget left), consume
the next prepopulated prime if any, else request a prime of
`todo / remaining` bits from `rand.Prime` (modelled by `draw i req`;
`rand.Prime` fails when asked for fewer than 2 bits, which aborts the whole
generation).  `todo` decreases by the bit length of each prime used. -/
def drawSteps (draw : Nat → Nat → Nat) : Nat → Nat → List Nat → Nat → Option (List DrawStep)
  | _, _, _, 0 => some []
  | i, todo, prepop, remaining+1 =>
    match prepop with
    | p :: rest =>
      (drawSteps draw (i+1) (todo - bitLen p) rest remaining).map (fun l => ⟨none, p⟩ :: l)
    | [] =>
      let req := todo / (remaining + 1)
      if req < 2 then none
      else (drawSteps draw (i+1) (todo - bitLen (draw i req)) [] remaining).map
        (fun l => ⟨some req, draw i req⟩ :: l)

/-- Go's pairwise-distinctness check on the collected primes (each prime is
compared against every earlier one). -/
def noDups : List Nat → Bool
  | [] => true
  | p :: rest => (!rest.contains p) && noDups rest

def totientProd (ps : List Nat) : Nat := (ps.map (fun p => p - 1)).prod

inductive AttemptOutcome where
  | primeErr : AttemptOutcome
  | restart : AttemptOutcome
  | success : RSAPriv → AttemptOutcome
deriving DecidableEq

/-- One iteration of the `NextSetOfPrimes` loop: collect the primes, check
pairwise distinctness, compute `n` and the totient, check `bitlen(n) = bits`,
and invert `e = 65537` modulo the totient.  Any failed check restarts;
a `rand.Prime` failure aborts. -/
def rsaAttempt (draw : Nat → Nat → Nat) (nprimes bits : Nat) (prepop : List Nat) : AttemptOutcome :=
  match drawSteps draw 0 (todoInit nprimes bits) prepop nprimes with
  | none => .primeErr
  | some steps =>
    let ps := steps.map DrawStep.prime
    if noDups ps then
      let n := ps.prod
      if bitLen n = bits then
        match modInverse 65537 (totientProd ps) with
        | some d => .success ⟨n, 65537, d, ps⟩
        | none => .restart
      else .restart
    else .restart

/-- The retry loop of `generateRSAKeyWithPrimes`.  `draws a i k` is the
prime returned by `rand.Prime` for the `i`-th request of size `k` in attempt
`a`; the prepopulated list is consumed across attempts (the source pops its
head on every use), so attempt `a+1` starts from `prepop.drop nprimes`.
The loop in the source is unbounded; `fuel` bounds the model, with `none`
meaning the computation is still running. -/
def rsaLoop (draws : Nat → Nat → Nat → Nat) (nprimes bits : Nat) :
    Nat → Nat → List Nat → Option (Except String RSAPriv)
  | 0, _, _ => none
  | fuel+1, a, prepop =>
    match rsaAttempt (draws a) nprimes bits prepop with
    | .primeErr => some (.error "rand.Prime: prime size must be at least 2-bit")
    | .success k => some (.ok k)
    | .restart => rsaLoop draws nprimes bits fuel (a+1) (prepop.drop nprimes)

/-- `generateRSAKeyWithPrimes(random, nprimes, bits, prepopulatedPrimes)`
(CRT precomputation, which touches no field the claims mention, is
omitted). -/
def generateRSAKeyWithPrimes (draws : Nat → Nat → Nat → Nat) (nprimes bits : Nat)
    (prepop : List Nat) (fuel : Nat) : Option (Except String RSAPriv) :=
  if nprimes < 2 then some (.error "generateRSAKeyWithPrimes: nprimes must be >= 2")
  else if bits < 1024 then some (.error "generateRSAKeyWithPrimes: bits must be >= 1024")
  else rsaLoop draws nprimes bits fuel 0 prepop

/-! ### Configuration and the key factory (`newSigner` / `newDecrypter`) -/

/-- Go `crypto.Hash` identifiers (values from the Go standard library). -/
def cryptoSHA224 : Nat := 4
def cryptoSHA256 : Nat := 5
def cryptoSHA384 : Nat := 6
def cryptoSHA512 : Nat := 7
def cryptoSHA3x256 : Nat := 11
def cryptoSHA3x512 : Nat := 13

/-- Modelled from the spec: `hashToHashId` maps `crypto.Hash` values to
OpenPGP hash-algorithm ids (registry values). -/
def hashToHashId (h : Nat) : Nat :=
  if h = cryptoSHA224 then 11
  else if h = cryptoSHA256 then 8
  else if h = cryptoSHA384 then 9
  else if h = cryptoSHA512 then 10
  else if h = cryptoSHA3x256 then 12
  else if h = cryptoSHA3x512 then 14
  else 0

def compressionNone : Nat := 0
def aeadModeEAX : Nat := 1

/-- The configuration options consumed by the embedded functions, with the
nil-`Config` defaults already resolved (the Go accessor methods live outside
the source files; §4.8 of the spec lists the options).  `aead = none` means
no AEAD configuration; `AEADConfig.Mode()` of an absent configuration is
EAX. -/
structure Config where
  publicKeyAlgorithm : Nat
  v5Keys : Bool
  rsaModulusBits : Nat
  rsaPrimes : List Nat
  curveName : String
  hash : Nat
  cipher : Nat
  compression : Nat
  aead : Option Nat
  sphincsPlusParam : Nat
deriving DecidableEq

def Config.aeadMode (c : Config) : Nat := c.aead.getD aeadModeEAX

/-- The key material produced by the key factory, tagged by family.  The
actual generators are external primitives; the tag records which generator
was invoked and with which resolved parameters. -/
inductive GenKey where
  | rsa (bits : Nat) (fromPrimes : List Nat)
  | eddsa (curveName : String)
  | ecdsa (curveName : String)
  | ecdh (curveName : String)
  | dilithiumEcdsa (algId : Nat)
  | dilithiumEddsa (algId : Nat)
  | sphincsPlus (algId : Nat) (param : Nat)
  | kyberEcdh (algId : Nat)
deriving DecidableEq

def isDilithiumEcdsaAlgo (a : Nat) : Bool :=
  a = pubKeyAlgoDilithium3p256 ∨ a = pubKeyAlgoDilithium5p384 ∨
  a = pubKeyAlgoDilithium3Brainpool256 ∨ a = pubKeyAlgoDilithium5Brainpool384

def isDilithiumEddsaAlgo (a : Nat) : Bool :=
  a = pubKeyAlgoDilithium3Ed25519 ∨ a = pubKeyAlgoDilithium5Ed448

def isSphincsPlusAlgo (a : Nat) : Bool :=
  a = pubKeyAlgoSphincsPlusSha2 ∨ a = pubKeyAlgoSphincsPlusShake

/-- Every post-quantum / hybrid algorithm id (Kyber-hybrid, Dilithium-hybrid,
SPHINCS+). -/
def isPQAlgo (a : Nat) : Bool :=
  isKyberAlgo a ∨ isDilithiumEcdsaAlgo a ∨ isDilithiumEddsaAlgo a ∨ isSphincsPlusAlgo a

/-- Modelled from the spec (§4.1): `GetMatchingKyberKem` maps each
Dilithium-hybrid and SPHINCS+ signing algorithm to the Kyber-hybrid KEM
sharing its ECC component (SPHINCS+ variants by parameter-set size). -/
def GetMatchingKyberKem (a : Nat) : Except PgpError Nat :=
  if a = pubKeyAlgoDilithium3Ed25519 then .ok pubKeyAlgoKyber768X25519
  else if a = pubKeyAlgoDilithium5Ed448 then .ok pubKeyAlgoKyber1024X448
  else if a = pubKeyAlgoDilithium3p256 then .ok pubKeyAlgoKyber768P256
  else if a = pubKeyAlgoDilithium5p384 then .ok pubKeyAlgoKyber1024P384
  else if a = pubKeyAlgoDilithium3Brainpool256 then .ok pubKeyAlgoKyber768Brainpool256
  else if a = pubKeyAlgoDilithium5Brainpool384 then .ok pubKeyAlgoKyber1024Brainpool384
  else if a = pubKeyAlgoSphincsPlusSha2 then .ok pubKeyAlgoKyber768X25519
  else if a = pubKeyAlgoSphincsPlusShake then .ok pubKeyAlgoKyber1024X448
  else .error (.invalidArgument "no matching kyber KEM for algorithm")

/-- `newSigner(config)`.  The curve registries (`ecc.FindEdDSAByGenName`,
`ecc.FindECDSAByGenName`) are external; they are passed as predicates saying
whether a generator name resolves.  The Dilithium/SPHINCS+ parameter lookups
by algorithm id always succeed for the ids that reach them.  Note the V5
gate failures are `errors.New` (generic) errors in the source, not
`InvalidArgumentError`s. -/
def newSigner (findEdDSA findECDSA : String → Bool) (config : Config) : Except PgpError GenKey :=
  if config.publicKeyAlgorithm = pubKeyAlgoRSA then
    if config.rsaModulusBits < 1024 then .error (.invalidArgument "bits must be >= 1024")
    else if 2 ≤ config.rsaPrimes.length then .ok (.rsa config.rsaModulusBits (config.rsaPrimes.take 2))
    else .ok (.rsa config.rsaModulusBits [])
  else if config.publicKeyAlgorithm = pubKeyAlgoEdDSA then
    if findEdDSA config.curveName then .ok (.eddsa config.curveName)
    else .error (.invalidArgument "unsupported curve")
  else if config.publicKeyAlgorithm = pubKeyAlgoECDSA then
    if findECDSA config.curveName then .ok (.ecdsa config.curveName)
    else .error (.invalidArgument "unsupported curve")
  else if isDilithiumEcdsaAlgo config.publicKeyAlgorithm then
    if ¬ config.v5Keys then .error (.generic "openpgp: cannot create a non-v5 dilithium_ecdsa key")
    else .ok (.dilithiumEcdsa config.publicKeyAlgorithm)
  else if isDilithiumEddsaAlgo config.publicKeyAlgorithm then
    if ¬ config.v5Keys then .error (.generic "openpgp: cannot create a non-v5 dilithium_eddsa key")
    else .ok (.dilithiumEddsa config.publicKeyAlgorithm)
  else if isSphincsPlusAlgo config.publicKeyAlgorithm then
    if ¬ config.v5Keys then .error (.generic "openpgp: cannot create a non-v5 sphincs+ key")
    else .ok (.sphincsPlus config.publicKeyAlgorithm config.sphincsPlusParam)
  else .error (.invalidArgument "unsupported public key algorithm")

/-- `newDecrypter(config)`.  EdDSA/ECDSA substitute an ECDH subkey;
Dilithium-hybrid and SPHINCS+ substitute the matching Kyber KEM and fall
through to the Kyber case, whose V5 gate raises a generic error. -/
def newDecrypter (findECDH : String → Bool) (config : Config) : Except PgpError GenKey :=
  if config.publicKeyAlgorithm = pubKeyAlgoRSA then
    if config.rsaModulusBits < 1024 then .error (.invalidArgument "bits must be >= 1024")
    else if 2 ≤ config.rsaPrimes.length then .ok (.rsa config.rsaModulusBits (config.rsaPrimes.take 2))
    else .ok (.rsa config.rsaModulusBits [])
  else if config.publicKeyAlgorithm = pubKeyAlgoEdDSA ∨ config.publicKeyAlgorithm = pubKeyAlgoECDSA
          ∨ config.publicKeyAlgorithm = pubKeyAlgoECDH then
    if findECDH config.curveName then .ok (.ecdh config.curveName)
    else .error (.invalidArgument "unsupported curve")
  else if isDilithiumEcdsaAlgo config.publicKeyAlgorithm ∨ isDilithiumEddsaAlgo config.publicKeyAlgorithm
          ∨ isSphincsPlusAlgo config.publicKeyAlgorithm then
    match GetMatchingKyberKem config.publicKeyAlgorithm with
    | .error e => .error e
    | .ok kem =>
      if ¬ config.v5Keys then .error (.generic "openpgp: cannot create a non-v5 kyber_ecdh key")
      else .ok (.kyberEcdh kem)
  else if isKyberAlgo config.publicKeyAlgorithm then
    if ¬ config.v5Keys then .error (.generic "openpgp: cannot create a non-v5 kyber_ecdh key")
    else .ok (.kyberEcdh config.publicKeyAlgorithm)
  else .error (.invalidArgument "unsupported public key algorithm")

/-! ### Entities, identities and `addUserId` -/

/-- A signature record with exactly the fields `addUserId` assigns (other
fields of the source structure keep Go zero values and are omitted);
`sigData` stands for the output of the external signing step. -/
structure Signature where
  Version : Nat
  SigType : Nat
  PubKeyAlgo : Nat
  Hash : Nat
  CreationTime : Nat
  KeyLifetimeSecs : Nat
  IssuerKeyId : Nat
  IssuerFingerprint : List Nat
  IsPrimaryId : Bool
  FlagsValid : Bool
  FlagSign : Bool
  FlagCertify : Bool
  MDC : Bool
  AEAD : Bool
  V5Keys : Bool
  PreferredHash : List Nat
  PreferredSymmetric : List Nat
  PreferredCompression : List Nat
  PreferredAEAD : List Nat
  sigData : List Nat
deriving DecidableEq

structure Identity where
  Name : String
  SelfSignature : Signature
deriving DecidableEq

structure PrimaryKey where
  Version : Nat
  PubKeyAlgo : Nat
  KeyId : Nat
  Fingerprint : List Nat
deriving DecidableEq

/-- An entity: the primary key and the identity map (modelled as an
association list keyed by the canonical user-id string). -/
structure Entity where
  Primary : PrimaryKey
  Identities : List (String × Identity)
deriving DecidableEq

def sigTypePositiveCert : Nat := 19

/-- Modelled from the spec: `packet.NewUserId` rejects any of
`( ) < > \x00` in any field and builds the canonical
`name (comment) <email>` id string. -/
def hasInvalidIdChar (s : String) : Bool :=
  s.data.any (fun c => c = '(' ∨ c = ')' ∨ c = '<' ∨ c = '>' ∨ c = Char.ofNat 0)

def mkUserIdString (name comment email : String) : String :=
  name ++ (if comment = "" then "" else " (" ++ comment ++ ")")
       ++ (if email = "" then "" else " <" ++ email ++ ">")

def NewUserId (name comment email : String) : Option String :=
  if hasInvalidIdChar name ∨ hasInvalidIdChar comment ∨ hasInvalidIdChar email then none
  else some (mkUserIdString name comment email)

/-- The positive-certification self-signature `addUserId` builds before
signing: issuer data from the primary key, capability flags, and the four
preferred lists seeded from the configuration (the configured value first,
then the must-implement algorithm when it differs; compression starts from
None). -/
def buildSelfSignature (t : Entity) (config : Config)
    (creationTime keyLifetimeSecs : Nat) : Signature :=
  { Version := t.Primary.Version
    SigType := sigTypePositiveCert
    PubKeyAlgo := t.Primary.PubKeyAlgo
    Hash := config.hash
    CreationTime := creationTime
    KeyLifetimeSecs := keyLifetimeSecs
    IssuerKeyId := t.Primary.KeyId
    IssuerFingerprint := t.Primary.Fingerprint
    IsPrimaryId := t.Identities.length = 0
    FlagsValid := true
    FlagSign := true
    FlagCertify := true
    MDC := true
    AEAD := config.aead.isSome
    V5Keys := config.v5Keys
    PreferredHash :=
      hashToHashId config.hash ::
        (if config.hash ≠ cryptoSHA256 then [hashToHashId cryptoSHA256] else [])
    PreferredSymmetric :=
      config.cipher :: (if config.cipher ≠ cipherAES128 then [cipherAES128] else [])
    PreferredCompression :=
      compressionNone ::
        (if config.compression ≠ compressionNone then [config.compression] else [])
    PreferredAEAD :=
      config.aeadMode :: (if config.aeadMode ≠ aeadModeEAX then [aeadModeEAX] else [])
    sigData := [] }

/-- `Entity.addUserId`: validate the user id, reject duplicates, build the
positive-certification self-signature with the preferred lists seeded from
the configuration, sign it (the external `SignUserId` step is the `sign`
parameter, which fills `sigData`), and register the identity. -/
def addUserId (sign : String → Signature → Except PgpError (List Nat)) (t : Entity)
    (name comment email : String) (config : Config)
    (creationTime keyLifetimeSecs : Nat) : Except PgpError Entity :=
  match NewUserId name comment email with
  | none => .error (.invalidArgument "user id field contained invalid characters")
  | some uid =>
    if (t.Identities.lookup uid).isSome then .error (.invalidArgument "user id exist")
    else
      let selfSignature := buildSelfSignature t config creationTime keyLifetimeSecs
      match sign uid selfSignature with
      | .error e => .error e
      | .ok bytes =>
        .ok { t with Identities :=
          t.Identities ++ [(uid, { Name := uid, SelfSignature := { selfSignature with sigData := bytes } })] }

/-! ### Decidability helper and concrete data used by the closed theorems -/

instance {ε α : Type} [DecidableEq ε] [DecidableEq α] : DecidableEq (Except ε α) := fun a b =>
  match a, b with
  | .ok x, .ok y =>
    if h : x = y then isTrue (by rw [h]) else isFalse (by intro hc; cases hc; exact h rfl)
  | .error x, .error y =>
    if h : x = y then isTrue (by rw [h]) else isFalse (by intro hc; cases hc; exact h rfl)
  | .ok _, .error _ => isFalse (by intro hc; cases hc)
  | .error _, .ok _ => isFalse (by intro hc; cases hc)

/-- Placeholder primitive closures used to instantiate the serializer in
concrete scenarios. -/
def trivEncPrims : EncPrims :=
  { rsaEncrypt := fun b => .ok b
    elgamalEncrypt := fun _ => .ok (1, 1)
    ecdhEncrypt := fun b => .ok (b, b)
    x25519Encrypt := fun b => .ok (List.replicate 32 0, b)
    x448Encrypt := fun b => .ok (List.replicate 56 0, b)
    kyberEncrypt := fun b => .ok (List.replicate 1088 0, List.replicate 32 0, b) }

/-- Placeholder primitive closures used to instantiate `Decrypt` in concrete
scenarios. -/
def trivDecPrims : DecPrims :=
  { rsaDecrypt := fun b => .ok b
    elgamalDecrypt := fun _ _ => .ok []
    ecdhDecrypt := fun _ _ => .ok []
    x25519Decrypt := fun _ _ => .ok []
    x448Decrypt := fun _ _ => .ok []
    kyberDecrypt := fun _ _ _ => .ok [] }

/-- Concrete v6 Kyber768+X25519 scenario exhibiting the lost session key:
a recipient public key with a 32-byte fingerprint. -/
def c1pub : PublicKey :=
  { Version := 6, KeyId := 12297829382473034410,
    Fingerprint := List.replicate 32 170, PubKeyAlgo := pubKeyAlgoKyber768X25519 }

def c1priv : PrivateKey :=
  { KeyId := 12297829382473034410, Fingerprint := List.replicate 32 170,
    PubKeyAlgo := pubKeyAlgoKyber768X25519, isDummy := false, rsaModulusBits := 0 }

/-- The 32-byte session key being encrypted. -/
def c1K : List Nat := List.replicate 32 1

/-- Toy Kyber encryptor: deterministic shares of the correct registry
lengths, with the wrapped key carrying the key block verbatim. -/
def c1EncPrims : EncPrims :=
  { trivEncPrims with kyberEncrypt := fun kb => .ok (List.replicate 1088 2, List.replicate 32 3, kb) }

/-- Toy Kyber decryptor, the exact inverse of `c1EncPrims.kyberEncrypt`:
returns the wrapped field verbatim. -/
def c1DecPrims : DecPrims :=
  { trivDecPrims with kyberDecrypt := fun _ _ m => .ok m }

/-- The packet that parsing the serialized scenario yields. -/
def c1Parsed : EncryptedKey :=
  { Version := 6, KeyId := 12297829382473034410, KeyVersion := 6,
    KeyFingerprint := List.replicate 32 170, Algo := pubKeyAlgoKyber768X25519,
    CipherFunc := 0, Key := [], encryptedMPI1 := List.replicate 32 3,
    encryptedMPI2 := List.replicate 1088 2, encryptedMPI3 := [],
    ephemeralPublicX25519 := [], ephemeralPublicX448 := [], encryptedSession := [] }

/-- A parsed v3 RSA packet whose issuer matches `c10priv`. -/
def c10pkt : EncryptedKey := { baseEK 3 0 [] 5 pubKeyAlgoRSA with encryptedMPI1 := [9] }

def c10priv : PrivateKey :=
  { KeyId := 5, Fingerprint := [], PubKeyAlgo := pubKeyAlgoRSA, isDummy := false, rsaModulusBits := 16 }

/-- RSA primitive returning a 0-byte plaintext. -/
def c10prims0 : DecPrims := { trivDecPrims with rsaDecrypt := fun _ => .ok [] }
/-- RSA primitive returning only the cipher-function octet (AES-128). -/
def c10prims1 : DecPrims := { trivDecPrims with rsaDecrypt := fun _ => .ok [cipherAES128] }
/-- RSA primitive returning the cipher octet and a single key byte (so the
checksum decoder receives one byte). -/
def c10prims2 : DecPrims := { trivDecPrims with rsaDecrypt := fun _ => .ok [cipherAES128, 0] }

/-- Witness products for the multi-prime RSA theorem: two distinct 512-bit
odd numbers whose product has exactly 1024 bits and whose totient is
coprime to 65537. -/
def wp : Nat := 10055855947456947824680518748654384595609524365444295033292671082791323022555160232601405723625177570767523893639864538140315412108959927459825236754563073

def wq : Nat := 10055855947456947824680518748654384595609524365444295033292671082791323022555160232601405723625177570767523893639864538140315412108959927459825236754563075

/-- The modular inverse of 65537 modulo `(wp-1)*(wq-1)`. -/
def wd : Nat := 52091496152438682180260926358016690598925863164571245042756817455879804357486669883911319298579626215421560990628426499850528720860441121358764132238633886279815677781501717660412194895517733387287493189327311981838019823201478809284673768366148268432989974324593744515353197141688307805689409477198156333057

def wdraws : Nat → Nat → Nat → Nat := fun _ _ _ => 0

def wKey : RSAPriv := { n := wp * wq, e := 65537, d := wd, primes := [wp, wq] }

/-- A configuration selecting Dilithium3+Ed25519 with `v5_keys = false`. -/
def c2cfg : Config :=
  { publicKeyAlgorithm := pubKeyAlgoDilithium3Ed25519, v5Keys := false,
    rsaModulusBits := 2048, rsaPrimes := [], curveName := "curve25519",
    hash := cryptoSHA256, cipher := cipherAES128, compression := compressionNone,
    aead := none, sphincsPlusParam := 1 }

/-- A v4 X25519 recipient key used to exercise the serializer's AES gate. -/
def c4pub : PublicKey := { Version := 4, KeyId := 7, Fingerprint := [], PubKeyAlgo := pubKeyAlgoX25519 }

/-- A parsed v3 X25519 packet whose envelope carried cipher function 1
(IDEA, not AES). -/
def c4pkt : EncryptedKey :=
  { baseEK 3 0 [] 0 pubKeyAlgoX25519 with
      CipherFunc := 1, ephemeralPublicX25519 := List.replicate 32 0, encryptedSession := [4, 5] }

def c4priv : PrivateKey :=
  { KeyId := 9, Fingerprint := [], PubKeyAlgo := pubKeyAlgoX25519, isDummy := false, rsaModulusBits := 0 }

def c4DecPrims : DecPrims := { trivDecPrims with x25519Decrypt := fun _ _ => .ok [1, 2] }

/-- A v3 packet for key id 5 and a private key with id 6. -/
def c7pkt3 : EncryptedKey := baseEK 3 0 [] 5 pubKeyAlgoRSA
def c7priv : PrivateKey :=
  { KeyId := 6, Fingerprint := [0, 1], PubKeyAlgo := pubKeyAlgoRSA, isDummy := false, rsaModulusBits := 16 }
/-- A v6 packet (key version 4) with a fingerprint different from `c7priv`. -/
def c7pkt6 : EncryptedKey := baseEK 6 4 [9, 9] 0 pubKeyAlgoRSA
/-- An anonymous v3 ECDH packet (key id 0). -/
def c7pktAlgo : EncryptedKey := baseEK 3 0 [] 0 pubKeyAlgoECDH
/-- A dummy (marker-only) ECDH private key matching `c7pktAlgo`. -/
def c7privDummy : PrivateKey :=
  { KeyId := 6, Fingerprint := [0, 1], PubKeyAlgo := pubKeyAlgoECDH, isDummy := true, rsaModulusBits := 0 }

def c8pub : PublicKey := { Version := 4, KeyId := 3, Fingerprint := [], PubKeyAlgo := pubKeyAlgoElGamal }

def c9sign : String → Signature → Except PgpError (List Nat) := fun _ _ => .ok [1]

def c9t0 : Entity :=
  { Primary := { Version := 4, PubKeyAlgo := pubKeyAlgoECDSA, KeyId := 11, Fingerprint := [2, 3] },
    Identities := [] }

/-- Configuration with every preference differing from the must-implement
defaults: SHA-512, AES-256, ZIP compression, OCB AEAD. -/
def c9cfg : Config :=
  { publicKeyAlgorithm := pubKeyAlgoECDSA, v5Keys := false, rsaModulusBits := 2048,
    rsaPrimes := [], curveName := "nistp256", hash := cryptoSHA512,
    cipher := cipherAES256, compression := 1, aead := some 2, sphincsPlusParam := 0 }

/-- The self-signature `addUserId` builds for `c9cfg` (signed by `c9sign`). -/
def c9sig : Signature :=
  { Version := 4, SigType := sigTypePositiveCert, PubKeyAlgo := pubKeyAlgoECDSA,
    Hash := cryptoSHA512, CreationTime := 100, KeyLifetimeSecs := 0,
    IssuerKeyId := 11, IssuerFingerprint := [2, 3], IsPrimaryId := true,
    FlagsValid := true, FlagSign := true, FlagCertify := true, MDC := true,
    AEAD := true, V5Keys := false, PreferredHash := [10, 8],
    PreferredSymmetric := [9, 7], PreferredCompression := [0, 1],
    PreferredAEAD := [2, 1], sigData := [1] }

def c9t2 : Entity :=
  { Primary := c9t0.Primary,
    Identities := [("Alice <a@b>", { Name := "Alice <a@b>", SelfSignature := c9sig })] }

/-- A well-formed v3 RSA packet body: version 3, key id 0, algorithm 1,
one MPI (8 bits, byte 171). -/
def c3body : List Nat := [3, 0, 0, 0, 0, 0, 0, 0, 0, 1, 0, 8, 171]

/-- The same body with a trailing byte appended after the algorithm fields. -/
def c3bodyTrailing : List Nat := c3body ++ [255]

def c3pkt : EncryptedKey := { baseEK 3 0 [] 0 pubKeyAlgoRSA with encryptedMPI1 := [171] }

/-- Prefix-stability of a body reader: appending bytes to the input changes
neither the result nor the consumed prefix. -/
def ExtP {α : Type} (m : ParseM α) : Prop :=
  ∀ s t a r, m s = .ok (a, r) → m (s ++ t) = .ok (a, r ++ t)

/-! ## Theorems -/

/-! ### Checksum codec lemmas -/

theorem checksum_foldl (k : List Nat) (acc : Nat) (h : acc < 65536) :
    k.foldl (fun a v => (a + v) % 65536) acc = (acc + k.sum) % 65536 := by
  induction k generalizing acc with
  | nil => simpa using (Nat.mod_eq_of_lt h).symm
  | cons x xs ih =>
    simp only [List.foldl_cons, List.sum_cons]
    rw [ih _ (Nat.mod_lt _ (by norm_num))]
    rw [Nat.mod_add_mod]
    congr 1
    omega

theorem checksumKeyMaterial_eq_sum (k : List Nat) :
    checksumKeyMaterial k = k.sum % 65536 := by
  unfold checksumKeyMaterial
  simpa using checksum_foldl k 0 (by norm_num)

theorem checksumKeyMaterial_lt (k : List Nat) : checksumKeyMaterial k < 65536 := by
  rw [checksumKeyMaterial_eq_sum]
  exact Nat.mod_lt _ (by norm_num)

theorem encodeChecksumKey_def (k : List Nat) :
    encodeChecksumKey k = k ++ [checksumKeyMaterial k / 256, checksumKeyMaterial k % 256] := rfl

theorem decodeChecksumKey_eq (msg : List Nat) (h : 2 ≤ msg.length) :
    decodeChecksumKey msg = .ok (msg.take (msg.length - 2),
      if checksumKeyMaterial (msg.take (msg.length - 2)) ≠
          (msg.getD (msg.length - 2) 0) % 256 * 256 + (msg.getD (msg.length - 1) 0) % 256
      then some (.structural "session key checksum is incorrect") else none) := by
  unfold decodeChecksumKey
  rw [if_neg (by omega)]

/-- C5: The checksum codec is an exact round-trip: decoding an encoded key
of length at most 64 returns the key with no error, and `decodeChecksumKey`
returns `StructuralError("session key checksum is incorrect")` exactly when
the trailing two bytes differ from the big-endian 16-bit wrapping sum
(mod 2^16) of the preceding bytes. -/
theorem decodeChecksumKey_exact :
    (∀ k : List Nat, k.length ≤ 64 →
        decodeChecksumKey (encodeChecksumKey k) = .ok (k, none)) ∧
    (∀ msg : List Nat, 2 ≤ msg.length → (∀ b ∈ msg, b < 256) →
        (decodeChecksumKey msg = .ok (msg.take (msg.length - 2),
            some (.structural "session key checksum is incorrect")) ↔
          msg.getD (msg.length - 2) 0 * 256 + msg.getD (msg.length - 1) 0 ≠
            (msg.take (msg.length - 2)).sum % 65536)) := by
  constructor
  · intro k _hlen
    have hc := checksumKeyMaterial_lt k
    rw [encodeChecksumKey_def]
    have hlen2 : (k ++ [checksumKeyMaterial k / 256, checksumKeyMaterial k % 256]).length
        = k.length + 2 := by simp
    rw [decodeChecksumKey_eq _ (by omega), hlen2]
    have h22 : k.length + 2 - 2 = k.length := by omega
    have h21 : k.length + 2 - 1 = k.length + 1 := by omega
    rw [h22, h21]
    have htake : (k ++ [checksumKeyMaterial k / 256, checksumKeyMaterial k % 256]).take k.length
        = k := List.take_left k _
    have hhi : (k ++ [checksumKeyMaterial k / 256, checksumKeyMaterial k % 256]).getD k.length 0
        = checksumKeyMaterial k / 256 := by
      rw [List.getD_append_right _ _ _ _ (le_refl _)]
      simp
    have hlo : (k ++ [checksumKeyMaterial k / 256, checksumKeyMaterial k % 256]).getD
        (k.length + 1) 0 = checksumKeyMaterial k % 256 := by
      rw [List.getD_append_right _ _ _ _ (Nat.le_add_right _ _)]
      simp
    rw [htake, hhi, hlo]
    have hval : checksumKeyMaterial k / 256 % 256 * 256 + checksumKeyMaterial k % 256 % 256
        = checksumKeyMaterial k := by omega
    rw [hval]
    simp
  · intro msg hlen hb
    have hhi : msg.getD (msg.length - 2) 0 < 256 := by
      rw [List.getD_eq_getElem msg 0 (show msg.length - 2 < msg.length by omega)]
      exact hb _ (List.getElem_mem _)
    have hlo : msg.getD (msg.length - 1) 0 < 256 := by
      rw [List.getD_eq_getElem msg 0 (show msg.length - 1 < msg.length by omega)]
      exact hb _ (List.getElem_mem _)
    rw [decodeChecksumKey_eq _ hlen, Nat.mod_eq_of_lt hhi, Nat.mod_eq_of_lt hlo,
      checksumKeyMaterial_eq_sum]
    constructor
    · intro h
      by_contra heq
      rw [if_neg (by omega)] at h
      simp at h
    · intro h
      rw [if_pos (by omega)]

/-- Witness for C5 at concrete inputs: the round-trip on `[1,2,3]` and the
mismatch detection on `[1,9,9]`. -/
theorem decodeChecksumKey_exact_witness :
    decodeChecksumKey (encodeChecksumKey [1, 2, 3]) = .ok ([1, 2, 3], none) ∧
    decodeChecksumKey [1, 9, 9] =
      .ok ([1], some (.structural "session key checksum is incorrect")) :=
  ⟨decodeChecksumKey_exact.1 [1, 2, 3] (by decide),
   (decodeChecksumKey_exact.2 [1, 9, 9] (by decide) (by decide)).mpr (by decide)⟩

/-! ### Serializer and decrypter gate theorems -/

/-- C8: For every public key of algorithm ElGamal, `SerializeEncryptedKeyAEAD`
with `aeadSupported = true` (version 6) fails with `InvalidArgument` and
writes nothing to the output. -/
theorem serialize_elgamal_v6_rejected (prims : EncPrims) (pub : PublicKey)
    (cipherFunc : Nat) (key : List Nat) (halg : pub.PubKeyAlgo = pubKeyAlgoElGamal) :
    SerializeEncryptedKeyAEAD prims pub cipherFunc true key =
      ([], some (.invalidArgument "ElGamal v6 PKESK are not allowed")) := by
  unfold SerializeEncryptedKeyAEAD
  rw [if_pos]
  exact ⟨rfl, halg⟩

/-- Witness for C8 at a concrete ElGamal key. -/
theorem serialize_elgamal_v6_rejected_witness :
    SerializeEncryptedKeyAEAD trivEncPrims c8pub cipherAES128 true [1] =
      ([], some (.invalidArgument "ElGamal v6 PKESK are not allowed")) :=
  serialize_elgamal_v6_rejected trivEncPrims c8pub cipherAES128 [1] (by decide)

/-- C4: For v3 PKESKs on X25519/X448, serializing with a cipher function
other than AES-128/192/256 fails with `InvalidArgument`, and decrypting a
parsed v3 packet whose cipher-function byte is not AES fails with a
`Structural` error (after the primitive call, whose success is assumed). -/
theorem v3_cfrg_aes_gate (prims : EncPrims) (dprims : DecPrims) (pub : PublicKey)
    (cipherFunc : Nat) (key : List Nat) (e : EncryptedKey) (priv : PrivateKey) :
    ((pub.PubKeyAlgo = pubKeyAlgoX25519 ∨ pub.PubKeyAlgo = pubKeyAlgoX448) →
      isAESCipherFunc cipherFunc = false →
      SerializeEncryptedKeyAEAD prims pub cipherFunc false key =
        ([], some (.invalidArgument "v3 PKESK mandates AES for x25519 and x448"))) ∧
    (e.Version = 3 → e.Algo = pubKeyAlgoX25519 → priv.PubKeyAlgo = pubKeyAlgoX25519 →
      isAESCipherFunc e.CipherFunc = false →
      (e.KeyId = 0 ∨ e.KeyId = priv.KeyId) → priv.isDummy = false →
      ∀ b, dprims.x25519Decrypt e.ephemeralPublicX25519 e.encryptedSession = .ok b →
      Decrypt dprims e priv =
        .fails e (.structural "v3 PKESK mandates AES as cipher function for x25519 and x448")) ∧
    (e.Version = 3 → e.Algo = pubKeyAlgoX448 → priv.PubKeyAlgo = pubKeyAlgoX448 →
      isAESCipherFunc e.CipherFunc = false →
      (e.KeyId = 0 ∨ e.KeyId = priv.KeyId) → priv.isDummy = false →
      ∀ b, dprims.x448Decrypt e.ephemeralPublicX448 e.encryptedSession = .ok b →
      Decrypt dprims e priv =
        .fails e (.structural "v3 PKESK mandates AES as cipher function for x25519 and x448")) := by
  refine ⟨?_, ?_, ?_⟩
  · intro halg hcf
    unfold SerializeEncryptedKeyAEAD
    rw [if_neg, if_pos]
    · exact ⟨rfl, halg, by simp [hcf]⟩
    · rintro ⟨h6, hel⟩
      rcases halg with h | h <;> rw [h] at hel <;> simp at hel
  · intro hv halg hpalg hcf hk hd b hb
    unfold Decrypt
    rw [if_neg, if_neg, if_neg, if_neg, if_neg]
    · simp [hpalg, halg, hv, hb, decryptEnvelope, isChecksummedAlgo, hcf]
    · simp [decryptCapableAlgo, hpalg]
    · rw [hd]; exact Bool.false_ne_true
    · rw [halg, hpalg]; simp
    · rintro ⟨h6, _⟩; omega
    · rintro ⟨_, hnz, hne⟩
      rcases hk with h | h
      · exact hnz h
      · exact hne h
  · intro hv halg hpalg hcf hk hd b hb
    unfold Decrypt
    rw [if_neg, if_neg, if_neg, if_neg, if_neg]
    · simp [hpalg, halg, hv, hb, decryptEnvelope, isChecksummedAlgo, hcf]
    · simp [decryptCapableAlgo, hpalg]
    · rw [hd]; exact Bool.false_ne_true
    · rw [halg, hpalg]; simp
    · rintro ⟨h6, _⟩; omega
    · rintro ⟨_, hnz, hne⟩
      rcases hk with h | h
      · exact hnz h
      · exact hne h

/-- Witness for C4: cipher function 1 (IDEA) is rejected by the serializer
at v3 X25519 and by `Decrypt` on a parsed v3 X25519 packet. -/
theorem v3_cfrg_aes_gate_witness :
    SerializeEncryptedKeyAEAD trivEncPrims c4pub 1 false [1] =
      ([], some (.invalidArgument "v3 PKESK mandates AES for x25519 and x448")) ∧
    Decrypt c4DecPrims c4pkt c4priv =
      .fails c4pkt (.structural "v3 PKESK mandates AES as cipher function for x25519 and x448") :=
  ⟨(v3_cfrg_aes_gate trivEncPrims c4DecPrims c4pub 1 [1] c4pkt c4priv).1 (by decide) (by decide),
   (v3_cfrg_aes_gate trivEncPrims c4DecPrims c4pub 1 [1] c4pkt c4priv).2.1 (by decide) (by decide)
     (by decide) (by decide) (by decide) (by decide) [1, 2] (by decide)⟩

/-- C7: `Decrypt` rejects before invoking any primitive, in check order: a
v3 packet with a non-zero key id differing from the private key id yields
`InvalidArgument` (key id 0 is anonymous and passes); a v6 packet with a
non-zero key version and a fingerprint differing from the private key
yields `InvalidArgument`; an algorithm mismatch yields `InvalidArgument`;
a dummy private key yields the dummy-key error.  In every case the returned
packet state is the unmodified input (in particular its `Key` field), and
the outcome does not depend on the primitives at all (the statement holds
for arbitrary `prims`). -/
theorem decrypt_early_rejections (prims : DecPrims) (e : EncryptedKey) (priv : PrivateKey) :
    (e.Version < 6 → e.KeyId ≠ 0 → e.KeyId ≠ priv.KeyId →
      Decrypt prims e priv = .fails e (.invalidArgument
        "cannot decrypt encrypted session key: packet key id does not match the private key id")) ∧
    (e.Version = 6 → e.KeyVersion ≠ 0 → e.KeyFingerprint ≠ priv.Fingerprint →
      Decrypt prims e priv = .fails e (.invalidArgument
        "cannot decrypt encrypted session key: packet fingerprint does not match the private key fingerprint")) ∧
    (¬(e.Version < 6 ∧ e.KeyId ≠ 0 ∧ e.KeyId ≠ priv.KeyId) →
     ¬(e.Version = 6 ∧ e.KeyVersion ≠ 0 ∧ e.KeyFingerprint ≠ priv.Fingerprint) →
     e.Algo ≠ priv.PubKeyAlgo →
      Decrypt prims e priv = .fails e (.invalidArgument
        "cannot decrypt encrypted session key: packet algorithm does not match the private key algorithm")) ∧
    (¬(e.Version < 6 ∧ e.KeyId ≠ 0 ∧ e.KeyId ≠ priv.KeyId) →
     ¬(e.Version = 6 ∧ e.KeyVersion ≠ 0 ∧ e.KeyFingerprint ≠ priv.Fingerprint) →
     e.Algo = priv.PubKeyAlgo → priv.isDummy = true →
      Decrypt prims e priv = .fails e (.dummyKey "dummy key found")) := by
  refine ⟨?_, ?_, ?_, ?_⟩
  · intro h1 h2 h3
    unfold Decrypt
    rw [if_pos ⟨h1, h2, h3⟩]
  · intro h1 h2 h3
    unfold Decrypt
    rw [if_neg (by rintro ⟨hlt, _⟩; omega), if_pos ⟨h1, h2, h3⟩]
  · intro h1 h2 h3
    unfold Decrypt
    rw [if_neg h1, if_neg h2, if_pos h3]
  · intro h1 h2 h3 h4
    unfold Decrypt
    rw [if_neg h1, if_neg h2, if_neg (by rw [h3]; exact fun hc => hc rfl), if_pos h4]

/-- Witness for C7: each of the four rejections at a concrete packet/key
pair. -/
theorem decrypt_early_rejections_witness :
    Decrypt trivDecPrims c7pkt3 c7priv = .fails c7pkt3 (.invalidArgument
      "cannot decrypt encrypted session key: packet key id does not match the private key id") ∧
    Decrypt trivDecPrims c7pkt6 c7priv = .fails c7pkt6 (.invalidArgument
      "cannot decrypt encrypted session key: packet fingerprint does not match the private key fingerprint") ∧
    Decrypt trivDecPrims c7pktAlgo c7priv = .fails c7pktAlgo (.invalidArgument
      "cannot decrypt encrypted session key: packet algorithm does not match the private key algorithm") ∧
    Decrypt trivDecPrims c7pktAlgo c7privDummy = .fails c7pktAlgo (.dummyKey "dummy key found") :=
  ⟨(decrypt_early_rejections trivDecPrims c7pkt3 c7priv).1 (by decide) (by decide) (by decide),
   (decrypt_early_rejections trivDecPrims c7pkt6 c7priv).2.1 (by decide) (by decide) (by decide),
   (decrypt_early_rejections trivDecPrims c7pktAlgo c7priv).2.2.1 (by decide) (by decide) (by decide),
   (decrypt_early_rejections trivDecPrims c7pktAlgo c7privDummy).2.2.2 (by decide) (by decide)
     (by decide) (by decide)⟩

/-! ### Key-factory version gating -/

/-- Counterexample to C2 as stated: for a Dilithium3+Ed25519 configuration
with `v5Keys = false`, `newDecrypter` fails with a *generic* `errors.New`
error ("openpgp: cannot create a non-v5 kyber_ecdh key"), not with an
`InvalidArgument` error. -/
theorem newDecrypter_v4_pq_error_not_invalid_argument :
    newDecrypter (fun _ => true) c2cfg =
      .error (.generic "openpgp: cannot create a non-v5 kyber_ecdh key") ∧
    (PgpError.generic "openpgp: cannot create a non-v5 kyber_ecdh key").isInvalidArg = false := by
  decide

/-- C2 (amended): for every configuration selecting a Kyber-hybrid,
Dilithium-hybrid or SPHINCS+ algorithm with `v5Keys = false`, `newSigner`
and `newDecrypter` both fail — but the V5-gate failures are generic
(`errors.New`) errors, not `InvalidArgument`: `newSigner` returns
`InvalidArgument("unsupported public key algorithm")` only for the
Kyber ids (which are not signing algorithms at all), a generic non-v5
error for the Dilithium and SPHINCS+ families, and `newDecrypter` returns
the generic non-v5 kyber_ecdh error for every one of these ids. -/
theorem pq_v4_generation_fails (findEdDSA findECDSA findECDH : String → Bool) (config : Config)
    (hpq : isPQAlgo config.publicKeyAlgorithm = true) (hv5 : config.v5Keys = false) :
    (isKyberAlgo config.publicKeyAlgorithm = true →
      newSigner findEdDSA findECDSA config =
        .error (.invalidArgument "unsupported public key algorithm")) ∧
    (isDilithiumEcdsaAlgo config.publicKeyAlgorithm = true →
      newSigner findEdDSA findECDSA config =
        .error (.generic "openpgp: cannot create a non-v5 dilithium_ecdsa key")) ∧
    (isDilithiumEddsaAlgo config.publicKeyAlgorithm = true →
      newSigner findEdDSA findECDSA config =
        .error (.generic "openpgp: cannot create a non-v5 dilithium_eddsa key")) ∧
    (isSphincsPlusAlgo config.publicKeyAlgorithm = true →
      newSigner findEdDSA findECDSA config =
        .error (.generic "openpgp: cannot create a non-v5 sphincs+ key")) ∧
    newDecrypter findECDH config =
      .error (.generic "openpgp: cannot create a non-v5 kyber_ecdh key") := by
  obtain ⟨alg, v5, bits, primes, cn, ha, ci, co, ae, sp⟩ := config
  dsimp only at hpq hv5 ⊢
  subst hv5
  simp only [isPQAlgo, isKyberAlgo, isDilithiumEcdsaAlgo, isDilithiumEddsaAlgo,
    isSphincsPlusAlgo, pubKeyAlgoKyber768X25519, pubKeyAlgoKyber1024X448,
    pubKeyAlgoKyber768P256, pubKeyAlgoKyber1024P384, pubKeyAlgoKyber768Brainpool256,
    pubKeyAlgoKyber1024Brainpool384, pubKeyAlgoDilithium3Ed25519, pubKeyAlgoDilithium5Ed448,
    pubKeyAlgoDilithium3p256, pubKeyAlgoDilithium5p384, pubKeyAlgoDilithium3Brainpool256,
    pubKeyAlgoDilithium5Brainpool384, pubKeyAlgoSphincsPlusSha2, pubKeyAlgoSphincsPlusShake,
    Bool.or_eq_true, decide_eq_true_eq] at hpq
  rcases hpq with ((h | h | h | h | h | h) | (h | h | h | h) | (h | h) | (h | h)) <;> subst h <;>
    refine ⟨fun hg => ?_, fun hg => ?_, fun hg => ?_, fun hg => ?_, ?_⟩ <;>
    first
      | rfl
      | (exfalso; revert hg; decide)

/-- Witness for C2 (amended) at the Dilithium3+Ed25519 configuration. -/
theorem pq_v4_generation_fails_witness :
    newSigner (fun _ => true) (fun _ => true) c2cfg =
      .error (.generic "openpgp: cannot create a non-v5 dilithium_eddsa key") ∧
    newDecrypter (fun _ => true) c2cfg =
      .error (.generic "openpgp: cannot create a non-v5 kyber_ecdh key") :=
  ⟨(pq_v4_generation_fails (fun _ => true) (fun _ => true) (fun _ => true) c2cfg
      (by decide) (by decide)).2.2.1 (by decide),
   (pq_v4_generation_fails (fun _ => true) (fun _ => true) (fun _ => true) c2cfg
      (by decide) (by decide)).2.2.2.2⟩

/-! ### Code-bug exhibits -/

/-- C1 (code bug): the PKESK round-trip loses the session key for the Kyber
algorithms.  In a complete v6 Kyber768+X25519 round-trip — serializer
succeeds, parser succeeds on its output, `Decrypt` succeeds with matching
key material and mutually inverse toy KEM primitives — the recovered `Key`
is empty instead of the 32-byte session key: the serializer's key-block
switch has no Kyber case (it encrypts a nil block) and `Decrypt`'s final
switch has no Kyber case either (it never assigns the decrypted bytes). -/
theorem kyber_roundtrip_returns_empty_key :
    (SerializeEncryptedKeyAEAD c1EncPrims c1pub cipherAES256 true c1K).2 = none ∧
    parse (SerializeEncryptedKeyAEAD c1EncPrims c1pub cipherAES256 true c1K).1 = .ok c1Parsed ∧
    Decrypt c1DecPrims c1Parsed c1priv = .succeeds { c1Parsed with Key := [] } ∧
    c1K ≠ [] := by
  decide

/-- C10 (code bug): `Decrypt` panics instead of returning an error when the
RSA primitive yields a plaintext shorter than the v3 envelope requires —
zero bytes (the `b[0]` cipher-octet read is out of range), one byte
(`decodeChecksumKey` slices `msg[:len-2]` on an empty message), or two
bytes (one-byte message for the checksum decoder). -/
theorem decrypt_short_plaintext_panics :
    Decrypt c10prims0 c10pkt c10priv = .panics ∧
    Decrypt c10prims1 c10pkt c10priv = .panics ∧
    Decrypt c10prims2 c10pkt c10priv = .panics := by
  decide

/-! ### Parsing is insensitive to trailing data -/

theorem extP_pure {α : Type} (a : α) : ExtP (pure a : ParseM α) := by
  intro s t x r h
  obtain ⟨rfl, rfl⟩ := Prod.mk.injEq .. ▸ Except.ok.inj h
  rfl

theorem extP_bind {α β : Type} {m : ParseM α} {f : α → ParseM β}
    (hm : ExtP m) (hf : ∀ x, ExtP (f x)) : ExtP (m >>= f) := by
  intro s t a r h
  change (match m s with
    | .ok (x, s2) => f x s2
    | .error e => .error e) = _ at h
  change (match m (s ++ t) with
    | .ok (x, s2) => f x s2
    | .error e => .error e) = _
  cases hx : m s with
  | error e => rw [hx] at h; cases h
  | ok p =>
    obtain ⟨x, s1⟩ := p
    rw [hx] at h
    rw [hm s t x s1 hx]
    exact hf x s1 t a r h

theorem extP_pthrow {α : Type} (e : PgpError) : ExtP (pthrow e : ParseM α) := by
  intro s t a r h
  cases h

theorem extP_rd1 : ExtP rd1 := by
  intro s t a r h
  cases s with
  | nil => cases h
  | cons b rest =>
    obtain ⟨rfl, rfl⟩ := Prod.mk.injEq .. ▸ Except.ok.inj h
    rfl

theorem extP_rdN (n : Nat) : ExtP (rdN n) := by
  intro s t a r h
  unfold rdN at h ⊢
  split at h
  case isTrue hle =>
    obtain ⟨rfl, rfl⟩ := Prod.mk.injEq .. ▸ Except.ok.inj h
    rw [if_pos (by simp; omega)]
    rw [List.take_append_of_le_length hle, List.drop_append_of_le_length hle]
  case isFalse => cases h

theorem extP_ite {α : Type} (c : Prop) [Decidable c] {m1 m2 : ParseM α}
    (h1 : ExtP m1) (h2 : ExtP m2) : ExtP (if c then m1 else m2) := by
  by_cases hc : c
  · rw [if_pos hc]; exact h1
  · rw [if_neg hc]; exact h2

theorem extP_readMPI : ExtP readMPI := by
  unfold readMPI
  exact extP_bind (extP_rdN 2) (fun hd => extP_rdN _)

theorem extP_readOID : ExtP readOID := by
  unfold readOID
  exact extP_bind extP_rd1 (fun l => extP_rdN l)

theorem extP_decodeCFRGFields (ephLen : Nat) (isV6 : Bool) : ExtP (decodeCFRGFields ephLen isV6) := by
  unfold decodeCFRGFields
  refine extP_bind (extP_rdN _) (fun eph => ?_)
  refine extP_bind extP_rd1 (fun l => ?_)
  refine extP_bind (extP_rdN _) (fun ct => ?_)
  cases isV6 with
  | true => exact extP_bind (extP_pure 0) (fun cf => extP_pure _)
  | false => exact extP_bind extP_rd1 (fun cf => extP_pure _)

theorem extP_readKyberECDHKey (lenEcc lenKyber : Nat) : ExtP (readKyberECDHKey lenEcc lenKyber) := by
  unfold readKyberECDHKey
  exact extP_bind (extP_rdN _) (fun ec =>
    extP_bind (extP_rdN _) (fun ky =>
      extP_bind extP_readOID (fun m => extP_pure _)))

theorem extP_parseAlgoFields (version keyVersion : Nat) (fingerprint : List Nat) (keyId : Nat) :
    ExtP (parseAlgoFields version keyVersion fingerprint keyId) := by
  unfold parseAlgoFields
  refine extP_bind extP_rd1 (fun algo => ?_)
  refine extP_ite _ (extP_bind extP_readMPI (fun m1 => extP_pure _)) ?_
  refine extP_ite _ (extP_bind extP_readMPI (fun m1 =>
    extP_bind extP_readMPI (fun m2 => extP_pure _))) ?_
  refine extP_ite _ (extP_bind extP_readMPI (fun m1 =>
    extP_bind extP_readOID (fun m2 => extP_pure _))) ?_
  refine extP_ite _ (extP_bind (extP_decodeCFRGFields 32 _) (fun f => extP_pure _)) ?_
  refine extP_ite _ (extP_bind (extP_decodeCFRGFields 56 _) (fun f => extP_pure _)) ?_
  refine extP_ite _ (extP_bind (extP_readKyberECDHKey 32 1088) (fun f => extP_pure _)) ?_
  refine extP_ite _ (extP_bind (extP_readKyberECDHKey 56 1568) (fun f => extP_pure _)) ?_
  refine extP_ite _ (extP_bind (extP_readKyberECDHKey 65 1088) (fun f => extP_pure _)) ?_
  refine extP_ite _ (extP_bind (extP_readKyberECDHKey 97 1568) (fun f => extP_pure _)) ?_
  refine extP_ite _ (extP_bind (extP_readKyberECDHKey 65 1088) (fun f => extP_pure _)) ?_
  refine extP_ite _ (extP_bind (extP_readKyberECDHKey 97 1568) (fun f => extP_pure _)) ?_
  exact extP_pure _

theorem extP_parseBody : ExtP parseBody := by
  unfold parseBody
  refine extP_bind extP_rd1 (fun version => ?_)
  refine extP_ite _ (extP_pthrow _) ?_
  refine extP_ite _ ?_ (extP_bind (extP_rdN 8) (fun kid => extP_parseAlgoFields _ _ _ _))
  refine extP_bind extP_rd1 (fun keyVersion => ?_)
  refine extP_ite _ (extP_pthrow _) ?_
  exact extP_bind (extP_rdN _) (fun fingerprint => extP_parseAlgoFields _ _ _ _)

/-- C3 (amended): trailing bytes after the algorithm-specific fields do not
cause any error — the final `consumeAll` reads and discards them, so a body
that parses successfully still parses to the very same packet after
appending arbitrary extra bytes. -/
theorem parse_ignores_trailing_data (s t : List Nat) (e : EncryptedKey)
    (h : parse s = .ok e) : parse (s ++ t) = .ok e := by
  unfold parse at h ⊢
  cases hb : parseBody s with
  | error err => rw [hb] at h; cases h
  | ok p =>
    obtain ⟨e0, r⟩ := p
    rw [hb] at h
    rw [extP_parseBody s t e0 r hb]
    exact h

/-- Counterexample to C3 as stated: a v3 RSA body with one trailing byte
after the MPI parses successfully (no `Structural` error). -/
theorem parse_trailing_byte_succeeds : parse c3bodyTrailing = .ok c3pkt := by decide

/-- Witness for C3 (amended): the concrete v3 RSA body still parses to the
same packet after appending a trailing byte. -/
theorem parse_ignores_trailing_data_witness : parse (c3body ++ [255]) = .ok c3pkt :=
  parse_ignores_trailing_data c3body [255] c3pkt (by decide)

/-! ### Preferred-algorithm lists in the self-signature -/

theorem lookup_append_none {β : Type} (l1 l2 : List (String × β)) (a : String)
    (h : List.lookup a l1 = none) : List.lookup a (l1 ++ l2) = List.lookup a l2 := by
  induction l1 with
  | nil => simp
  | cons x xs ih =>
    simp only [List.lookup, List.cons_append] at h ⊢
    cases hx : (a == x.1) with
    | true => simp [hx] at h
    | false => simp only [hx] at h ⊢; exact ih h

/-- C9: for every successful `addUserId`, the registered identity's
self-signature preferred lists satisfy: preferred-hash begins with the
configured hash and, when that differs from SHA-256, SHA-256 is the second
element; preferred-symmetric begins with the configured cipher and AES-128
follows when it differs; preferred-compression begins with None and the
configured compression follows when it is not None; preferred-AEAD begins
with the configured AEAD mode and EAX follows when the mode is not EAX. -/
theorem addUserId_preferred_lists (sign : String → Signature → Except PgpError (List Nat))
    (t : Entity) (name comment email : String) (config : Config)
    (creationTime keyLifetimeSecs : Nat) (t2 : Entity)
    (h : addUserId sign t name comment email config creationTime keyLifetimeSecs = .ok t2) :
    ∃ uid ident,
      NewUserId name comment email = some uid ∧
      t2.Identities.lookup uid = some ident ∧
      ident.SelfSignature.PreferredHash.head? = some (hashToHashId config.hash) ∧
      (config.hash ≠ cryptoSHA256 →
        ident.SelfSignature.PreferredHash.get? 1 = some (hashToHashId cryptoSHA256)) ∧
      ident.SelfSignature.PreferredSymmetric.head? = some config.cipher ∧
      (config.cipher ≠ cipherAES128 →
        ident.SelfSignature.PreferredSymmetric.get? 1 = some cipherAES128) ∧
      ident.SelfSignature.PreferredCompression.head? = some compressionNone ∧
      (config.compression ≠ compressionNone →
        ident.SelfSignature.PreferredCompression.get? 1 = some config.compression) ∧
      ident.SelfSignature.PreferredAEAD.head? = some config.aeadMode ∧
      (config.aeadMode ≠ aeadModeEAX →
        ident.SelfSignature.PreferredAEAD.get? 1 = some aeadModeEAX) := by
  unfold addUserId at h
  cases hu : NewUserId name comment email with
  | none => rw [hu] at h; cases h
  | some uid =>
    rw [hu] at h
    dsimp only at h
    by_cases hl : (t.Identities.lookup uid).isSome
    · rw [if_pos hl] at h; cases h
    · rw [if_neg hl] at h
      cases hs : sign uid (buildSelfSignature t config creationTime keyLifetimeSecs) with
      | error e2 => rw [hs] at h; cases h
      | ok bytes =>
        rw [hs] at h
        have ht2 := Except.ok.inj h
        subst ht2
        refine ⟨uid,
          { Name := uid,
            SelfSignature :=
              { buildSelfSignature t config creationTime keyLifetimeSecs with sigData := bytes } },
          rfl, ?_, ?_, ?_, ?_, ?_, ?_, ?_, ?_, ?_⟩
        · dsimp only
          rw [lookup_append_none _ _ _ (Option.not_isSome_iff_eq_none.mp hl)]
          simp [List.lookup]
        · simp [buildSelfSignature]
        · intro hne; simp [buildSelfSignature, hne]
        · simp [buildSelfSignature]
        · intro hne
          simp only [cipherAES128] at hne
          simp [buildSelfSignature, hne]
        · simp [buildSelfSignature]
        · intro hne; simp [buildSelfSignature, hne]
        · simp [buildSelfSignature]
        · intro hne; simp [buildSelfSignature, hne]

/-- Witness for C9: a concrete `addUserId` run with SHA-512, AES-256, ZIP
compression and OCB AEAD configured, so every second element is exercised. -/
theorem addUserId_preferred_lists_witness :
    ∃ uid ident,
      NewUserId "Alice" "" "a@b" = some uid ∧
      c9t2.Identities.lookup uid = some ident ∧
      ident.SelfSignature.PreferredHash.head? = some (hashToHashId c9cfg.hash) ∧
      (c9cfg.hash ≠ cryptoSHA256 →
        ident.SelfSignature.PreferredHash.get? 1 = some (hashToHashId cryptoSHA256)) ∧
      ident.SelfSignature.PreferredSymmetric.head? = some c9cfg.cipher ∧
      (c9cfg.cipher ≠ cipherAES128 →
        ident.SelfSignature.PreferredSymmetric.get? 1 = some cipherAES128) ∧
      ident.SelfSignature.PreferredCompression.head? = some compressionNone ∧
      (c9cfg.compression ≠ compressionNone →
        ident.SelfSignature.PreferredCompression.get? 1 = some c9cfg.compression) ∧
      ident.SelfSignature.PreferredAEAD.head? = some c9cfg.aeadMode ∧
      (c9cfg.aeadMode ≠ aeadModeEAX →
        ident.SelfSignature.PreferredAEAD.get? 1 = some aeadModeEAX) :=
  addUserId_preferred_lists c9sign c9t0 "Alice" "" "a@b" c9cfg 100 0 c9t2 (by decide)

/-! ### Multi-prime RSA generation: correctness lemmas -/

theorem egcd_gcd : ∀ (fuel : Nat) (r0 : Nat) (s0 : Int) (r1 : Nat) (s1 : Int), r1 < fuel →
    (egcd fuel r0 s0 r1 s1).1 = Nat.gcd r0 r1 := by
  intro fuel
  induction fuel with
  | zero => intro r0 s0 r1 s1 h; omega
  | succ f ih =>
    intro r0 s0 r1 s1 h
    unfold egcd
    by_cases h1 : r1 = 0
    · rw [if_pos h1, h1, Nat.gcd_zero_right]
    · rw [if_neg h1]
      have hlt : r0 % r1 < f := by
        have := Nat.mod_lt r0 (show 0 < r1 by omega)
        omega
      rw [ih r1 s1 (r0 % r1) _ hlt]
      rw [Nat.gcd_comm r1 (r0 % r1), ← Nat.gcd_rec r1 r0, Nat.gcd_comm r1 r0]

theorem egcd_bezout (a m : Nat) : ∀ (fuel : Nat) (r0 : Nat) (s0 : Int) (r1 : Nat) (s1 : Int),
    (s0 * a) ≡ (r0 : Int) [ZMOD (m : Int)] → (s1 * a) ≡ (r1 : Int) [ZMOD (m : Int)] →
    ((egcd fuel r0 s0 r1 s1).2 * a) ≡ ((egcd fuel r0 s0 r1 s1).1 : Int) [ZMOD (m : Int)] := by
  intro fuel
  induction fuel with
  | zero => intro r0 s0 r1 s1 h0 h1; exact h0
  | succ f ih =>
    intro r0 s0 r1 s1 h0 h1
    unfold egcd
    by_cases hz : r1 = 0
    · rw [if_pos hz]; exact h0
    · rw [if_neg hz]
      refine ih r1 s1 (r0 % r1) (s0 - ((r0 / r1 : Nat) : Int) * s1) h1 ?_
      have hq := Nat.mod_add_div r0 r1
      have hqi : ((r0 % r1 : Nat) : Int) + (r1 : Int) * ((r0 / r1 : Nat) : Int) = (r0 : Int) := by
        exact_mod_cast congrArg (fun x : Nat => (x : Int)) hq
      have hmod : ((r0 % r1 : Nat) : Int) = (r0 : Int) - ((r0 / r1 : Nat) : Int) * (r1 : Int) := by
        linear_combination hqi
      rw [hmod]
      have step : (s0 - ((r0 / r1 : Nat) : Int) * s1) * a
          = s0 * a - ((r0 / r1 : Nat) : Int) * (s1 * a) := by ring
      rw [step]
      exact Int.ModEq.sub h0 (Int.ModEq.mul_left _ h1)

theorem natModEq_of_intModEq {a b n : Nat}
    (h : (a : Int) ≡ (b : Int) [ZMOD (n : Int)]) : a ≡ b [MOD n] := by
  have h1 := Int.natCast_mod a n
  have h2 := Int.natCast_mod b n
  unfold Int.ModEq at h
  unfold Nat.ModEq
  omega

/-- Soundness of the `ModInverse` model: a returned inverse really inverts
`a` modulo `m`. -/
theorem modInverse_correct (a m d : Nat) (h : modInverse a m = some d) :
    d * a ≡ 1 [MOD m] := by
  unfold modInverse at h
  by_cases hm : m = 0
  · subst hm
    have hev : egcd (0 + 1) a 1 0 0 = (a, 1) := by simp [egcd]
    rw [hev] at h
    by_cases ha : a = 1
    · subst ha
      rw [if_pos rfl] at h
      have : d = 1 := by
        have := Option.some.inj h
        simp [Int.emod_zero] at this
        omega
      subst this
      rfl
    · rw [if_neg ha] at h; cases h
  · have hbez := egcd_bezout a m (m + 1) a 1 m 0
      (by rw [one_mul])
      (by
        rw [zero_mul]
        unfold Int.ModEq
        rw [Int.zero_emod, Int.emod_self])
    by_cases hg : (egcd (m + 1) a 1 m 0).1 = 1
    · rw [if_pos hg] at h
      have hd := Option.some.inj h
      rw [hg] at hbez
      have hmz : (m : Int) ≠ 0 := by exact_mod_cast hm
      have hnn : 0 ≤ (egcd (m + 1) a 1 m 0).2 % (m : Int) := Int.emod_nonneg _ hmz
      have hdc : (d : Int) = (egcd (m + 1) a 1 m 0).2 % (m : Int) := by
        rw [← hd, Int.toNat_of_nonneg hnn]
      have hmodeq : ((d : Int) * a) ≡ 1 [ZMOD (m : Int)] := by
        rw [hdc]
        calc (egcd (m + 1) a 1 m 0).2 % (m : Int) * a
            ≡ (egcd (m + 1) a 1 m 0).2 * a [ZMOD (m : Int)] :=
              Int.ModEq.mul_right a (Int.emod_emod_of_dvd _ dvd_rfl)
          _ ≡ ((1 : Nat) : Int) [ZMOD (m : Int)] := hbez
      show d * a ≡ 1 [MOD m]
      exact natModEq_of_intModEq (by push_cast; exact_mod_cast hmodeq)
    · rw [if_neg hg] at h; cases h

theorem drawSteps_zero (draw : Nat → Nat → Nat) (i todo : Nat) (prepop : List Nat) :
    drawSteps draw i todo prepop 0 = some [] := rfl

theorem drawSteps_cons_prepop (draw : Nat → Nat → Nat) (i todo p : Nat) (rest : List Nat) (r : Nat) :
    drawSteps draw i todo (p :: rest) (r + 1) =
      (drawSteps draw (i+1) (todo - bitLen p) rest r).map (fun l => ⟨none, p⟩ :: l) := rfl

theorem drawSteps_draw (draw : Nat → Nat → Nat) (i todo r : Nat) :
    drawSteps draw i todo [] (r + 1) =
      if todo / (r + 1) < 2 then none
      else (drawSteps draw (i+1) (todo - bitLen (draw i (todo / (r + 1)))) [] r).map
        (fun l => ⟨some (todo / (r + 1)), draw i (todo / (r + 1))⟩ :: l) := rfl

theorem drawSteps_length (draw : Nat → Nat → Nat) :
    ∀ (r i todo : Nat) (prepop : List Nat) (steps : List DrawStep),
    drawSteps draw i todo prepop r = some steps → steps.length = r := by
  intro r
  induction r with
  | zero =>
    intro i todo prepop steps h
    rw [drawSteps_zero] at h
    cases Option.some.inj h
    rfl
  | succ r ih =>
    intro i todo prepop steps h
    cases prepop with
    | cons p rest =>
      rw [drawSteps_cons_prepop] at h
      obtain ⟨l, hl, rfl⟩ := Option.map_eq_some'.mp h
      simpa using ih _ _ _ _ hl
    | nil =>
      rw [drawSteps_draw] at h
      split at h
      · cases h
      · obtain ⟨l, hl, rfl⟩ := Option.map_eq_some'.mp h
        simpa using ih _ _ _ _ hl

theorem drawSteps_spec (draw : Nat → Nat → Nat) :
    ∀ (r i todo : Nat) (prepop : List Nat) (steps : List DrawStep),
    drawSteps draw i todo prepop r = some steps →
    ∀ j st, steps.get? j = some st → ∀ req, st.request = some req →
      req = (todo - ((steps.take j).map (fun s => bitLen s.prime)).sum) / (r - j) ∧
      2 ≤ req ∧ st.prime = draw (i + j) req := by
  intro r
  induction r with
  | zero =>
    intro i todo prepop steps h j st hj req hreq
    rw [drawSteps_zero] at h
    cases Option.some.inj h
    simp at hj
  | succ r ih =>
    intro i todo prepop steps h j st hj req hreq
    cases prepop with
    | cons p rest =>
      rw [drawSteps_cons_prepop] at h
      obtain ⟨l, hl, rfl⟩ := Option.map_eq_some'.mp h
      cases j with
      | zero =>
        simp at hj
        rw [← hj] at hreq
        simp at hreq
      | succ j =>
        simp only [List.get?_cons_succ] at hj
        obtain ⟨h1, h2, h3⟩ := ih (i+1) (todo - bitLen p) rest l hl j st hj req hreq
        refine ⟨?_, h2, ?_⟩
        · rw [h1]
          simp only [List.take_succ_cons, List.map_cons, List.sum_cons]
          rw [Nat.succ_sub_succ]
          congr 1
          omega
        · rw [h3]
          congr 1
          omega
    | nil =>
      rw [drawSteps_draw] at h
      split at h
      · cases h
      · rename_i hge
        obtain ⟨l, hl, rfl⟩ := Option.map_eq_some'.mp h
        cases j with
        | zero =>
          simp only [List.get?_cons_zero] at hj
          cases Option.some.inj hj
          simp only at hreq
          cases Option.some.inj hreq
          refine ⟨?_, by omega, ?_⟩
          · simp
          · simp
        | succ j =>
          simp only [List.get?_cons_succ] at hj
          obtain ⟨h1, h2, h3⟩ :=
            ih (i+1) (todo - bitLen (draw i (todo / (r + 1)))) [] l hl j st hj req hreq
          refine ⟨?_, h2, ?_⟩
          · rw [h1]
            simp only [List.take_succ_cons, List.map_cons, List.sum_cons]
            rw [Nat.succ_sub_succ]
            congr 1
            omega
          · rw [h3]
            congr 1
            omega

theorem noDups_iff (l : List Nat) : noDups l = true ↔ l.Nodup := by
  induction l with
  | nil => simp [noDups]
  | cons p rest ih =>
    simp [noDups, List.nodup_cons, ih, List.elem_iff]

theorem rsaAttempt_success (draw : Nat → Nat → Nat) (nprimes bits : Nat) (prepop : List Nat)
    (key : RSAPriv) (h : rsaAttempt draw nprimes bits prepop = .success key) :
    ∃ steps, drawSteps draw 0 (todoInit nprimes bits) prepop nprimes = some steps ∧
      key.primes = steps.map DrawStep.prime ∧
      key.e = 65537 ∧
      key.n = (steps.map DrawStep.prime).prod ∧
      noDups (steps.map DrawStep.prime) = true ∧
      bitLen key.n = bits ∧
      modInverse 65537 (totientProd (steps.map DrawStep.prime)) = some key.d := by
  unfold rsaAttempt at h
  cases hd : drawSteps draw 0 (todoInit nprimes bits) prepop nprimes with
  | none => rw [hd] at h; cases h
  | some steps =>
    rw [hd] at h
    dsimp only at h
    by_cases hnd : noDups (steps.map DrawStep.prime) = true
    · rw [if_pos hnd] at h
      by_cases hbl : bitLen (steps.map DrawStep.prime).prod = bits
      · rw [if_pos hbl] at h
        cases hmi : modInverse 65537 (totientProd (steps.map DrawStep.prime)) with
        | none => rw [hmi] at h; cases h
        | some d =>
          rw [hmi] at h
          have hk := AttemptOutcome.success.inj h
          subst hk
          exact ⟨steps, rfl, rfl, rfl, rfl, hnd, hbl, hmi⟩
      · rw [if_neg hbl] at h; cases h
    · rw [if_neg hnd] at h; cases h

theorem rsaLoop_success (draws : Nat → Nat → Nat → Nat) (nprimes bits : Nat) :
    ∀ (fuel a0 : Nat) (prepop : List Nat) (key : RSAPriv),
    rsaLoop draws nprimes bits fuel a0 prepop = some (.ok key) →
    ∃ k, rsaAttempt (draws (a0 + k)) nprimes bits (prepop.drop (k * nprimes)) = .success key := by
  intro fuel
  induction fuel with
  | zero => intro a0 prepop key h; cases h
  | succ f ih =>
    intro a0 prepop key h
    unfold rsaLoop at h
    cases ha : rsaAttempt (draws a0) nprimes bits prepop with
    | primeErr => rw [ha] at h; simp at h
    | success k0 =>
      rw [ha] at h
      have h1 := Except.ok.inj (Option.some.inj h)
      subst h1
      exact ⟨0, by simpa using ha⟩
    | restart =>
      rw [ha] at h
      obtain ⟨k, hk⟩ := ih (a0 + 1) (prepop.drop nprimes) key h
      refine ⟨k + 1, ?_⟩
      rw [List.drop_drop] at hk
      have e1 : a0 + 1 + k = a0 + (k + 1) := by omega
      have e2 : nprimes + k * nprimes = (k + 1) * nprimes := by ring
      rw [e1, e2] at hk
      exact hk

/-- C6: whenever `generateRSAKeyWithPrimes` returns a key, the guards
`nprimes ≥ 2` and `bits ≥ 1024` passed, and the key satisfies: `e = 65537`;
exactly `nprimes` pairwise-distinct factors whose product is `n` with
`bitlen(n) = bits`; and `d·e ≡ 1 (mod φ)` for `φ = Π(pᵢ−1)`.  Moreover some
attempt `a` produced the factors via the draw loop whose bit budget starts
at `bits` (incremented by `(nprimes−2)/5` when `nprimes ≥ 7`), each
`rand.Prime` request asking for `todo/(nprimes−i)` bits of the remaining
budget; under the `rand.Prime` contract (primality, exact bit length for
the requested sizes) and primality of the prepopulated values consumed, the
factors are prime and each drawn factor has exactly the requested bit
length. -/
theorem generateRSAKeyWithPrimes_sound (draws : Nat → Nat → Nat → Nat)
    (nprimes bits fuel : Nat) (prepop : List Nat) (key : RSAPriv)
    (hres : generateRSAKeyWithPrimes draws nprimes bits prepop fuel = some (.ok key)) :
    2 ≤ nprimes ∧ 1024 ≤ bits ∧
    key.e = 65537 ∧
    key.primes.length = nprimes ∧
    key.primes.Nodup ∧
    key.n = key.primes.prod ∧
    bitLen key.n = bits ∧
    key.d * key.e ≡ 1 [MOD totientProd key.primes] ∧
    ∃ a steps,
      drawSteps (draws a) 0 (todoInit nprimes bits) (prepop.drop (a * nprimes)) nprimes
        = some steps ∧
      key.primes = steps.map DrawStep.prime ∧
      (∀ j st req, steps.get? j = some st → st.request = some req →
        req = ((if 7 ≤ nprimes then bits + (nprimes - 2) / 5 else bits) -
            ((steps.take j).map (fun s => bitLen s.prime)).sum) / (nprimes - j) ∧
        2 ≤ req ∧ st.prime = draws a j req) ∧
      ((∀ i k, 2 ≤ k → Nat.Prime (draws a i k)) →
       (∀ st ∈ steps, st.request = none → Nat.Prime st.prime) →
       ∀ p ∈ key.primes, Nat.Prime p) ∧
      ((∀ i k, 2 ≤ k → bitLen (draws a i k) = k) →
       ∀ j st req, steps.get? j = some st → st.request = some req →
        bitLen st.prime = req) := by
  unfold generateRSAKeyWithPrimes at hres
  by_cases h2 : nprimes < 2
  · rw [if_pos h2] at hres; simp at hres
  · rw [if_neg h2] at hres
    by_cases hb : bits < 1024
    · rw [if_pos hb] at hres; simp at hres
    · rw [if_neg hb] at hres
      obtain ⟨a, ha⟩ := rsaLoop_success draws nprimes bits fuel 0 prepop key hres
      rw [Nat.zero_add] at ha
      obtain ⟨steps, hsteps, hprimes, he, hn, hnd, hbl, hmi⟩ :=
        rsaAttempt_success _ _ _ _ _ ha
      have hlen := drawSteps_length _ _ _ _ _ _ hsteps
      refine ⟨by omega, by omega, he, ?_, ?_, ?_, hbl, ?_, a, steps, hsteps, hprimes,
        ?_, ?_, ?_⟩
      · rw [hprimes, List.length_map, hlen]
      · rw [hprimes]
        exact (noDups_iff _).mp hnd
      · rw [hprimes]
        exact hn
      · rw [he, hprimes]
        exact modInverse_correct 65537 _ key.d hmi
      · intro j st req hj hreq
        have hs := drawSteps_spec _ _ _ _ _ _ hsteps j st hj req hreq
        rw [show (0 : Nat) + j = j from by omega] at hs
        rw [show todoInit nprimes bits
            = (if 7 ≤ nprimes then bits + (nprimes - 2) / 5 else bits) from rfl] at hs
        exact hs
      · intro hdraw hpre p hp
        rw [hprimes] at hp
        obtain ⟨st, hstmem, hpr⟩ := List.mem_map.mp hp
        obtain ⟨j, hj⟩ := List.mem_iff_get?.mp hstmem
        cases hreq : st.request with
        | none =>
          rw [← hpr]
          exact hpre st hstmem hreq
        | some req =>
          obtain ⟨h1, hge2, h3⟩ := drawSteps_spec _ _ _ _ _ _ hsteps j st hj req hreq
          rw [← hpr, h3]
          exact hdraw _ _ hge2
      · intro hbits j st req hj hreq
        obtain ⟨h1, hge2, h3⟩ := drawSteps_spec _ _ _ _ _ _ hsteps j st hj req hreq
        rw [h3]
        exact hbits _ _ hge2

/-- Witness for C6: a concrete run with two prepopulated 512-bit factors
(`fuel = 1`, two primes requested, `bits = 1024`). -/
theorem generateRSAKeyWithPrimes_sound_witness :
    wKey.e = 65537 ∧ wKey.primes.length = 2 ∧ wKey.primes.Nodup ∧
    wKey.n = wKey.primes.prod ∧ bitLen wKey.n = 1024 ∧
    wKey.d * wKey.e ≡ 1 [MOD totientProd wKey.primes] := by
  have h := generateRSAKeyWithPrimes_sound wdraws 2 1024 1 [wp, wq] wKey (by decide)
  exact ⟨h.2.2.1, h.2.2.2.1, h.2.2.2.2.1, h.2.2.2.2.2.1, h.2.2.2.2.2.2.1,
    h.2.2.2.2.2.2.2.1⟩
